import Mathlib

/-!
# simple2d `image.c`: pixel normalization and lazy texture upload

A shallow embedding of `src/image.c`.

* C `Uint32` / `GLuint` values and non-negative `int` values are natural
  numbers.  `int` has 32 bits: the `int` arithmetic of the loop header, the
  product `bpp * w * h` and the step `i += bpp`, is the fault
  `Fault.intOverflow` when its result is not below `2 ^ 31`, since C leaves
  signed overflow undefined.
* `char` bytes are natural numbers; the code only moves them.
* `GLfloat` fields only ever store values handed to them; they are rationals.
* The pixel buffer `surface->pixels` is a `List Nat`.  A read or write at an
  index that is not below its length is undefined behaviour in C and is the
  fault `Fault.outOfBounds` here.
* Touching the surface after `SDL_FreeSurface` is the fault `Fault.useAfterFree`.
* The backend (`S2D_GL_CreateTexture`, `S2D_GL_DrawImage`, `S2D_GL_FreeTexture`)
  and `SDL_FreeSurface` are seen through the trace of calls made to them.
* `S2D_GetRectRotationPoint` lives outside `image.c`; `S2D_RotateImage` takes
  it as a parameter, and `S2D_GetRectRotationPoint` below follows the spec.
-/

namespace Simple2D

/-! ## Faults -/

/-- Ways in which an execution leaves defined behaviour. -/
inductive Fault where
  | outOfBounds (index : Nat)
  | useAfterFree
  | nullDeref
  | intOverflow
  | outOfFuel
  deriving DecidableEq, Repr

deriving instance DecidableEq for Except

/-! ## SDL data -/

/-- The fields of `SDL_PixelFormat` that `image.c` reads. -/
structure SDL_PixelFormat where
  BitsPerPixel : Nat
  BytesPerPixel : Nat
  Rmask : Nat
  Gmask : Nat
  Amask : Nat
  deriving DecidableEq, Repr

/-- The fields of `SDL_Surface` that `image.c` reads. -/
structure SDL_Surface where
  format : SDL_PixelFormat
  w : Nat
  h : Nat
  pixels : List Nat
  deriving DecidableEq, Repr

/-! ## The normalization loop (`image.c` lines 65-92) -/

/-- The three statements `tmp = p[i]; p[i] = p[j]; p[j] = tmp;`. -/
def swapBytes (p : List Nat) (i j : Nat) : Except Fault (List Nat) :=
  match p[i]? with
  | none => .error (.outOfBounds i)
  | some tmp =>
    match p[j]? with
    | none => .error (.outOfBounds j)
    | some v => .ok ((p.set i v).set j tmp)

/-- The body of the `for` loop at byte offset `i` (lines 76-90). -/
def flipPixel (r g a : Nat) (i : Nat) (p : List Nat) : Except Fault (List Nat) := do
  let p1 ← (if a &&& 0xFF ≠ 0 then swapBytes p i (i + 3) else pure p)
  let p2 ← (if g &&& 0xFF0000 ≠ 0 then swapBytes p1 (i + 1) (i + 2) else pure p1)
  (if r &&& 0xFF0000 ≠ 0 then swapBytes p2 i (i + 2) else pure p2)

/-- The `int` product `a * b` of two non-negative `int` values.  A product
that is not below `2 ^ 31` is signed overflow. -/
def intMul (a b : Nat) : Except Fault Nat :=
  if a * b < 2 ^ 31 then .ok (a * b) else .error .intOverflow

/-- The `int` sum `a + b` of two non-negative `int` values.  A sum that is
not below `2 ^ 31` is signed overflow. -/
def intAdd (a b : Nat) : Except Fault Nat :=
  if a + b < 2 ^ 31 then .ok (a + b) else .error .intOverflow

/-- The right-hand side `bpp * w * h` of the loop test, computed in `int`
from left to right: `bpp * w` first, then its product with `h`. -/
def loopBound (bpp w h : Nat) : Except Fault Nat :=
  match intMul bpp w with
  | .error e => .error e
  | .ok bw => intMul bw h

/-- The loop `for (int i = 0; i < bpp * w * h; i += bpp)`, started at `i`;
`fuel` bounds the number of iterations.  The test computes `bpp * w * h`
every time it is run. -/
def flipLoop (r g a bpp w h : Nat) : Nat → Nat → List Nat → Except Fault (List Nat)
  | 0, i, p =>
    match loopBound bpp w h with
    | .error e => .error e
    | .ok bound => if i < bound then .error .outOfFuel else .ok p
  | fuel + 1, i, p =>
    match loopBound bpp w h with
    | .error e => .error e
    | .ok bound =>
      if i < bound then
        match flipPixel r g a i p with
        | .error e => .error e
        | .ok p1 =>
          match intAdd i bpp with
          | .error e => .error e
          | .ok i1 => flipLoop r g a bpp w h fuel i1 p1
      else .ok p

/-- Lines 65-92: "Flip image bits if BGA".  The loop runs at most `w * h`
times when it runs at all; that is the fuel. -/
def flipPixels (s : SDL_Surface) : Except Fault (List Nat) :=
  let r := s.format.Rmask
  let g := s.format.Gmask
  let a := s.format.Amask
  if r &&& 0xFF000000 ≠ 0 ∨ r &&& 0xFF0000 ≠ 0 then
    flipLoop r g a s.format.BytesPerPixel s.w s.h (s.w * s.h) 0 s.pixels
  else .ok s.pixels

/-! ## The image structure -/

/-- `S2D_Color`. -/
structure S2D_Color where
  r : Rat
  g : Rat
  b : Rat
  a : Rat
  deriving DecidableEq, Repr

/-- `S2D_GL_Point`. -/
structure S2D_GL_Point where
  x : Rat
  y : Rat
  deriving DecidableEq, Repr

/-- `S2D_Image`.  `surface` is the surface that the pointer `img->surface`
points to; `surface_live` is heap state, not a C field: it tells whether that
surface is still allocated (`SDL_FreeSurface` frees it and leaves the pointer
as it is). -/
structure S2D_Image where
  path : String
  surface : SDL_Surface
  surface_live : Bool
  format : Int
  texture_id : Nat
  color : S2D_Color
  x : Int
  y : Int
  width : Int
  height : Int
  orig_width : Int
  orig_height : Int
  rotate : Rat
  rx : Rat
  ry : Rat
  deriving DecidableEq, Repr

/-- Modelled from the spec: the OpenGL header constant `GL_RGB` is not under
`src/`; it stands for the spec's channel layout RGB, with the value the
OpenGL headers give it. -/
def GL_RGB : Int := 0x1907

/-- Modelled from the spec: the OpenGL header constant `GL_RGBA` is not under
`src/`; it stands for the spec's channel layout RGBA, with the value the
OpenGL headers give it. -/
def GL_RGBA : Int := 0x1908

/-- Modelled from the spec: the OpenGL header constant `GL_NEAREST` is not
under `src/`; it stands for the spec's nearest-neighbor sampling mode, with
the value the OpenGL headers give it. -/
def GL_NEAREST : Nat := 0x2600

/-! ## `S2D_CreateImage` -/

/-- What `S2D_CreateImage` hands to the diagnostics sink. -/
inductive Diag where
  | fileNotFound (path : String)
  | outOfMemory
  | imgLoadError
  | lowBitDepth (path : String) (bits_per_color : Nat)
  deriving DecidableEq, Repr

/-- The collaborators `S2D_CreateImage` calls: `S2D_FileExists`, `malloc`
and `IMG_Load` (`none` is the NULL surface). -/
structure LoadEnv where
  S2D_FileExists : String → Bool
  mallocOk : Bool
  IMG_Load : String → Option SDL_Surface

/-- The diagnostics emitted by a call of `S2D_CreateImage` and what it
returns (`none` is NULL). -/
structure LoadResult where
  log : List Diag
  result : Except Fault (Option S2D_Image)

/-- The function `S2D_CreateImage` (lines 8-95). -/
def S2D_CreateImage (env : LoadEnv) (path : String) : LoadResult :=
  if !env.S2D_FileExists path then
    { log := [.fileNotFound path], result := .ok none }
  else if !env.mallocOk then
    { log := [.outOfMemory], result := .ok none }
  else
    match env.IMG_Load path with
    | none => { log := [.imgLoadError], result := .ok none }
    | some surface =>
      let bits_per_color :=
        if surface.format.Amask = 0 then surface.format.BitsPerPixel / 3
        else surface.format.BitsPerPixel / 4
      let log := if bits_per_color < 8 then [Diag.lowBitDepth path bits_per_color] else []
      let format := if surface.format.BytesPerPixel = 4 then GL_RGBA else GL_RGB
      match flipPixels surface with
      | .error e => { log := log, result := .error e }
      | .ok pixels =>
        { log := log
          result := .ok (some
            { path := path
              surface := { surface with pixels := pixels }
              surface_live := true
              x := 0
              y := 0
              color := { r := 1, g := 1, b := 1, a := 1 }
              orig_width := surface.w
              orig_height := surface.h
              width := surface.w
              height := surface.h
              rotate := 0
              rx := 0
              ry := 0
              texture_id := 0
              format := format }) }

/-! ## `S2D_RotateImage` -/

/-- The function `S2D_RotateImage` (lines 100-109) on a non-null image; the
code dereferences `img` unguarded.  `S2D_GetRectRotationPoint` is not part of
`image.c` and is the parameter `getRectRotationPoint`. -/
def S2D_RotateImage (getRectRotationPoint : Int → Int → Int → Int → Int → S2D_GL_Point)
    (img : S2D_Image) (angle : Rat) (position : Int) : S2D_Image :=
  let p := getRectRotationPoint img.x img.y img.width img.height position
  { img with rotate := angle, rx := p.x, ry := p.y }

/-! ## `S2D_DrawImage` -/

/-- Calls that leave `image.c` towards the rendering backend and SDL. -/
inductive Call where
  | createTexture (format w h : Int) (pixels : List Nat) (filter : Nat)
  | freeSurface
  | drawImage (img : S2D_Image)
  | freeTexture (texture_id : Nat)
  deriving DecidableEq, Repr

/-- The function `S2D_DrawImage` (lines 114-125).  `img = none` is the NULL
pointer.  `tex` is the value `S2D_GL_CreateTexture` leaves in `texture_id`
when this call reaches it (`0`: the backend made no texture).  `calls` is the
trace of calls made so far, oldest first.  `S2D_GL_DrawImage` only reads the
image. -/
def S2D_DrawImage (tex : Nat) (img : Option S2D_Image) (calls : List Call) :
    Except Fault (Option S2D_Image × List Call) :=
  match img with
  | none => .ok (none, calls)
  | some im =>
    if im.texture_id = 0 then
      if im.surface_live then
        let im1 := { im with texture_id := tex }
        let c1 := Call.createTexture im.format im.orig_width im.orig_height
          im.surface.pixels GL_NEAREST
        let im2 := { im1 with surface_live := false }
        .ok (some im2, calls ++ [c1, Call.freeSurface, Call.drawImage im2])
      else .error .useAfterFree
    else .ok (some im, calls ++ [Call.drawImage im])

/-- Draw the same image once for every entry of `texs`, in order; the entry
is the backend's answer for that call. -/
def drawMany : List Nat → Option S2D_Image → List Call →
    Except Fault (Option S2D_Image × List Call)
  | [], img, calls => .ok (img, calls)
  | tex :: texs, img, calls =>
    match S2D_DrawImage tex img calls with
    | .ok (img1, calls1) => drawMany texs img1 calls1
    | .error e => .error e

/-- One call made by the owner of an image. -/
inductive Op where
  | draw (tex : Nat)
  | rotate (angle : Rat) (position : Int)
  deriving DecidableEq, Repr

/-- Run one `Op` on the image pointer `img`. -/
def stepOp (getRectRotationPoint : Int → Int → Int → Int → Int → S2D_GL_Point) :
    Op → Option S2D_Image × List Call → Except Fault (Option S2D_Image × List Call)
  | .draw tex, (img, calls) => S2D_DrawImage tex img calls
  | .rotate _ _, (none, _) => .error .nullDeref
  | .rotate angle position, (some im, calls) =>
    .ok (some (S2D_RotateImage getRectRotationPoint im angle position), calls)

/-- Run a sequence of calls, first to last. -/
def runOps (getRectRotationPoint : Int → Int → Int → Int → Int → S2D_GL_Point) :
    List Op → Option S2D_Image × List Call → Except Fault (Option S2D_Image × List Call)
  | [], st => .ok st
  | op :: ops, st =>
    match stepOp getRectRotationPoint op st with
    | .ok st1 => runOps getRectRotationPoint ops st1
    | .error e => .error e

/-- Number of `createTexture` calls in a trace. -/
def countCreate (calls : List Call) : Nat :=
  (calls.filter fun c => match c with | .createTexture .. => true | _ => false).length

/-- Number of `freeSurface` calls in a trace. -/
def countFreeSurface (calls : List Call) : Nat :=
  (calls.filter fun c => match c with | .freeSurface => true | _ => false).length



/-! ## Pixels as tuples -/

/-- Four-byte pixels laid out one after the other. -/
def flat4 : List (Nat × Nat × Nat × Nat) → List Nat
  | [] => []
  | (b0, b1, b2, b3) :: pxs => b0 :: b1 :: b2 :: b3 :: flat4 pxs

/-- Three-byte pixels laid out one after the other. -/
def flat3 : List (Nat × Nat × Nat) → List Nat
  | [] => []
  | (b0, b1, b2) :: pxs => b0 :: b1 :: b2 :: flat3 pxs

/-- Exchange bytes 0 and 3 of a four-byte pixel when `c` holds. -/
def swap03If (c : Prop) [Decidable c] (px : Nat × Nat × Nat × Nat) : Nat × Nat × Nat × Nat :=
  if c then (px.2.2.2, px.2.1, px.2.2.1, px.1) else px

/-- Exchange bytes 1 and 2 of a four-byte pixel when `c` holds. -/
def swap12If (c : Prop) [Decidable c] (px : Nat × Nat × Nat × Nat) : Nat × Nat × Nat × Nat :=
  if c then (px.1, px.2.2.1, px.2.1, px.2.2.2) else px

/-- Exchange bytes 0 and 2 of a four-byte pixel when `c` holds. -/
def swap02If (c : Prop) [Decidable c] (px : Nat × Nat × Nat × Nat) : Nat × Nat × Nat × Nat :=
  if c then (px.2.2.1, px.2.1, px.1, px.2.2.2) else px

/-- What the spec's three conditional swaps do to one four-byte pixel, each
under its own mask condition: bytes 0 and 3 under the alpha mask, bytes 1 and
2 under the green mask, bytes 0 and 2 under the red mask. -/
def specPixel4 (r g a : Nat) (px : Nat × Nat × Nat × Nat) : Nat × Nat × Nat × Nat :=
  swap02If (r &&& 0xFF0000 ≠ 0) (swap12If (g &&& 0xFF0000 ≠ 0) (swap03If (a &&& 0xFF ≠ 0) px))

/-- Exchange bytes 1 and 2 of a three-byte pixel when `c` holds. -/
def swap12If3 (c : Prop) [Decidable c] (px : Nat × Nat × Nat) : Nat × Nat × Nat :=
  if c then (px.1, px.2.2, px.2.1) else px

/-- Exchange bytes 0 and 2 of a three-byte pixel when `c` holds. -/
def swap02If3 (c : Prop) [Decidable c] (px : Nat × Nat × Nat) : Nat × Nat × Nat :=
  if c then (px.2.2, px.2.1, px.1) else px

/-- What the green and red conditional swaps do to one three-byte pixel:
bytes 1 and 2 under the green mask, then bytes 0 and 2 under the red mask. -/
def specPixel3 (r g : Nat) (px : Nat × Nat × Nat) : Nat × Nat × Nat :=
  swap02If3 (r &&& 0xFF0000 ≠ 0) (swap12If3 (g &&& 0xFF0000 ≠ 0) px)

/-- The four-byte pixel number `k` of a buffer, when the buffer has one. -/
def pixel4At (p : List Nat) (k : Nat) : Option (Nat × Nat × Nat × Nat) :=
  match p[4 * k]?, p[4 * k + 1]?, p[4 * k + 2]?, p[4 * k + 3]? with
  | some b0, some b1, some b2, some b3 => some (b0, b1, b2, b3)
  | _, _, _, _ => none

/-- The three-byte pixel number `k` of a buffer, when the buffer has one. -/
def pixel3At (p : List Nat) (k : Nat) : Option (Nat × Nat × Nat) :=
  match p[3 * k]?, p[3 * k + 1]?, p[3 * k + 2]? with
  | some b0, some b1, some b2 => some (b0, b1, b2)
  | _, _, _ => none

/-! ## Concrete surfaces and environments -/

/-- An environment in which the file exists, the allocation succeeds and the
decoder returns the surface `s`. -/
def envOf (s : SDL_Surface) : LoadEnv :=
  { S2D_FileExists := fun _ => true, mallocOk := true, IMG_Load := fun _ => some s }

/-- A 2x1 surface of 32 bits per pixel with red mask `0x00FF0000`. -/
def bgra2x1 : SDL_Surface :=
  { format := { BitsPerPixel := 32, BytesPerPixel := 4, Rmask := 0x00FF0000,
                Gmask := 0x0000FF00, Amask := 0xFF000000 }
    w := 2, h := 1, pixels := [10, 20, 30, 40, 50, 60, 70, 80] }

/-- A 2x1 surface of 32 bits per pixel with reversed red and alpha masks. -/
def abgr2x1 : SDL_Surface :=
  { format := { BitsPerPixel := 32, BytesPerPixel := 4, Rmask := 0xFF000000,
                Gmask := 0x00FF0000, Amask := 0x000000FF }
    w := 2, h := 1, pixels := [10, 20, 30, 40, 50, 60, 70, 80] }

/-- A 2x1 surface of 32 bits per pixel in canonical order. -/
def rgba2x1 : SDL_Surface :=
  { format := { BitsPerPixel := 32, BytesPerPixel := 4, Rmask := 0x000000FF,
                Gmask := 0x0000FF00, Amask := 0xFF000000 }
    w := 2, h := 1, pixels := [10, 20, 30, 40, 50, 60, 70, 80] }

/-- A 1x1 surface of 16 bits per pixel without alpha mask. -/
def rgb565 : SDL_Surface :=
  { format := { BitsPerPixel := 16, BytesPerPixel := 2, Rmask := 0xF800,
                Gmask := 0x07E0, Amask := 0 }
    w := 1, h := 1, pixels := [1, 2] }

/-- The spec's channel count: 4 when the alpha mask is set, else 3. -/
def channelCount (f : SDL_PixelFormat) : Nat := if f.Amask ≠ 0 then 4 else 3

/-- A 1x1 surface of 3 bytes per pixel whose alpha mask has bits in `0xFF`. -/
def rgb1x1AlphaMask : SDL_Surface :=
  { format := { BitsPerPixel := 24, BytesPerPixel := 3, Rmask := 0x00FF0000,
                Gmask := 0x0000FF00, Amask := 0x000000FF }
    w := 1, h := 1, pixels := [1, 2, 3] }

/-- A 1x1 surface of 4 bytes per pixel with a canonical red mask and a green
mask that has bits in `0x00FF0000`. -/
def greenHigh1x1 : SDL_Surface :=
  { format := { BitsPerPixel := 32, BytesPerPixel := 4, Rmask := 0x000000FF,
                Gmask := 0x00FF0000, Amask := 0 }
    w := 1, h := 1, pixels := [1, 2, 3, 4] }

/-- A rotation-point function for runs that do not look at the pivot. -/
def originPoint : Int → Int → Int → Int → Int → S2D_GL_Point :=
  fun _ _ _ _ _ => { x := 0, y := 0 }

/-! ## `S2D_FreeImage` -/

/-- What is left of the allocations of an image after `S2D_FreeImage`:
whether the `S2D_Image` structure and the surface it pointed to are still
allocated. -/
structure Remains where
  struct_live : Bool
  surface_live : Bool
  deriving DecidableEq, Repr

/-- The function `S2D_FreeImage` (lines 130-134).  `img = none` is the NULL
pointer, for which the function returns at once.  Otherwise
`S2D_GL_FreeTexture(&img->texture_id)` is called and the structure is freed;
no statement touches `img->surface`. -/
def S2D_FreeImage (img : Option S2D_Image) (calls : List Call) : Option Remains × List Call :=
  match img with
  | none => (none, calls)
  | some im =>
    (some { struct_live := false, surface_live := im.surface_live },
      calls ++ [Call.freeTexture im.texture_id])

/-- Number of `freeTexture` calls in a trace. -/
def countFreeTexture (calls : List Call) : Nat :=
  (calls.filter fun c => match c with | .freeTexture _ => true | _ => false).length

/-! ## The rotation point -/

/-- The nine anchor positions the spec names: corners, edge midpoints and
center. -/
inductive Anchor where
  | topLeft
  | top
  | topRight
  | left
  | center
  | right
  | bottomLeft
  | bottom
  | bottomRight
  deriving DecidableEq, Repr

/-- Modelled from the spec: `S2D_GetRectRotationPoint` is not under `src/`.
The spec has it compute "a pivot point from the image's current position,
display dimensions, and a named anchor (e.g., one of nine standard positions:
corners, edge-midpoints, center)".  How the `int` argument names an anchor is
not given and is the parameter `anchorOf`. -/
def S2D_GetRectRotationPoint (anchorOf : Int → Anchor) (x y w h position : Int) :
    S2D_GL_Point :=
  match anchorOf position with
  | .topLeft => { x := x, y := y }
  | .top => { x := x + (w : Rat) / 2, y := y }
  | .topRight => { x := x + w, y := y }
  | .left => { x := x, y := y + (h : Rat) / 2 }
  | .center => { x := x + (w : Rat) / 2, y := y + (h : Rat) / 2 }
  | .right => { x := x + w, y := y + (h : Rat) / 2 }
  | .bottomLeft => { x := x, y := y + h }
  | .bottom => { x := x + (w : Rat) / 2, y := y + h }
  | .bottomRight => { x := x + w, y := y + h }

/-- An image at the origin whose display size the caller has set to
100 x 100. -/
def image100 : S2D_Image :=
  { path := "rgba.png"
    surface := rgba2x1
    surface_live := true
    format := GL_RGBA
    texture_id := 0
    color := { r := 1, g := 1, b := 1, a := 1 }
    x := 0
    y := 0
    width := 100
    height := 100
    orig_width := 2
    orig_height := 1
    rotate := 0
    rx := 0
    ry := 0 }

/-! ## The masks as a permutation -/

/-- The permutation of byte positions that the masks stand for: output byte
`j` of a pixel is input byte `permOfMasks r g a j`. -/
def permOfMasks (r g a : Nat) : Equiv.Perm (Fin 4) :=
  if r &&& 0xFF000000 ≠ 0 ∨ r &&& 0xFF0000 ≠ 0 then
    (if a &&& 0xFF ≠ 0 then Equiv.swap 0 3 else 1) *
      (if g &&& 0xFF0000 ≠ 0 then Equiv.swap 1 2 else 1) *
      (if r &&& 0xFF0000 ≠ 0 then Equiv.swap 0 2 else 1)
  else 1

/-- Byte `j` of a four-byte pixel. -/
def byteOf (px : Nat × Nat × Nat × Nat) (j : Fin 4) : Nat :=
  match j with
  | 0 => px.1
  | 1 => px.2.1
  | 2 => px.2.2.1
  | 3 => px.2.2.2

/-- A 1x1 surface of 4 bytes per pixel on which all three exchanges fire. -/
def allSwaps1x1 : SDL_Surface :=
  { format := { BitsPerPixel := 32, BytesPerPixel := 4, Rmask := 0x00FF0000,
                Gmask := 0x00FF0000, Amask := 0x000000FF }
    w := 1, h := 1, pixels := [1, 2, 3, 4] }

/-- A 65536 x 8192 surface of 4 bytes per pixel with the pixel format `f`.
Its buffer has `65536 * 8192 * 4 = 2 ^ 31` bytes, one more than the largest
`int`; its first pixel is `[1,2,3,4]` and all other bytes are 0. -/
def hugeSurface (f : SDL_PixelFormat) : SDL_Surface :=
  { format := f, w := 65536, h := 8192
    pixels := 1 :: 2 :: 3 :: 4 :: List.replicate 2147483644 0 }

/-- A 1x1 surface of 4 bytes per pixel that declares 16 bits per pixel and
whose red mask is `0x00FF0000`: the warning is emitted and the loop is
entered. -/
def lowDepthBgr1x1 : SDL_Surface :=
  { format := { BitsPerPixel := 16, BytesPerPixel := 4, Rmask := 0x00FF0000,
                Gmask := 0x0000FF00, Amask := 0 }
    w := 1, h := 1, pixels := [1, 2, 3, 4] }

theorem getElem?_second (pre : List Nat) (x y : Nat) (mid rest : List Nat) :
    (pre ++ x :: (mid ++ y :: rest))[pre.length + mid.length + 1]? = some y := by
  have h1 : pre.length + mid.length + 1 - pre.length = mid.length + 1 := by omega
  rw [List.getElem?_append_right (by omega), h1, List.getElem?_cons_succ,
    List.getElem?_append_right (le_refl _)]
  simp

theorem set_first (pre : List Nat) (x v : Nat) (tl : List Nat) :
    (pre ++ x :: tl).set pre.length v = pre ++ v :: tl := by
  induction pre with
  | nil => rfl
  | cons b pre ih => simp [ih]

theorem set_second (pre : List Nat) (x y v : Nat) (mid rest : List Nat) :
    (pre ++ x :: (mid ++ y :: rest)).set (pre.length + mid.length + 1) v
      = pre ++ x :: (mid ++ v :: rest) := by
  have h := set_first (pre ++ x :: mid) y v rest
  simp only [List.length_append, List.length_cons, List.append_assoc, List.cons_append] at h
  exact h

theorem swapBytes_append (pre : List Nat) (x y : Nat) (mid rest : List Nat) :
    swapBytes (pre ++ x :: (mid ++ y :: rest)) pre.length (pre.length + mid.length + 1)
      = .ok (pre ++ y :: (mid ++ x :: rest)) := by
  have h0 : (pre ++ x :: (mid ++ y :: rest))[pre.length]? = some x := by
    rw [List.getElem?_append_right (le_refl _)]
    simp
  simp only [swapBytes, h0, getElem?_second, set_first, set_second]

theorem swapBytes_03 (pre : List Nat) (b0 b1 b2 b3 : Nat) (tl : List Nat) :
    swapBytes (pre ++ b0 :: b1 :: b2 :: b3 :: tl) pre.length (pre.length + 3)
      = .ok (pre ++ b3 :: b1 :: b2 :: b0 :: tl) := by
  simpa using swapBytes_append pre b0 b3 [b1, b2] tl

theorem swapBytes_02 (pre : List Nat) (b0 b1 b2 : Nat) (tl : List Nat) :
    swapBytes (pre ++ b0 :: b1 :: b2 :: tl) pre.length (pre.length + 2)
      = .ok (pre ++ b2 :: b1 :: b0 :: tl) := by
  simpa using swapBytes_append pre b0 b2 [b1] tl

theorem swapBytes_12 (pre : List Nat) (b0 b1 b2 : Nat) (tl : List Nat) :
    swapBytes (pre ++ b0 :: b1 :: b2 :: tl) (pre.length + 1) (pre.length + 2)
      = .ok (pre ++ b0 :: b2 :: b1 :: tl) := by
  simpa using swapBytes_append (pre ++ [b0]) b1 b2 [] tl

theorem swap03If_pos {c : Prop} [Decidable c] (hc : c) (b0 b1 b2 b3 : Nat) :
    swap03If c (b0, b1, b2, b3) = (b3, b1, b2, b0) := if_pos hc

theorem swap12If_pos {c : Prop} [Decidable c] (hc : c) (b0 b1 b2 b3 : Nat) :
    swap12If c (b0, b1, b2, b3) = (b0, b2, b1, b3) := if_pos hc

theorem swap02If_pos {c : Prop} [Decidable c] (hc : c) (b0 b1 b2 b3 : Nat) :
    swap02If c (b0, b1, b2, b3) = (b2, b1, b0, b3) := if_pos hc

theorem swap03If_neg {c : Prop} [Decidable c] (hc : ¬c) (px : Nat × Nat × Nat × Nat) :
    swap03If c px = px := if_neg hc

theorem swap12If_neg {c : Prop} [Decidable c] (hc : ¬c) (px : Nat × Nat × Nat × Nat) :
    swap12If c px = px := if_neg hc

theorem swap02If_neg {c : Prop} [Decidable c] (hc : ¬c) (px : Nat × Nat × Nat × Nat) :
    swap02If c px = px := if_neg hc

theorem step03 (c : Prop) [Decidable c] (pre : List Nat) (px : Nat × Nat × Nat × Nat)
    (tl : List Nat) :
    (if c then swapBytes (pre ++ (flat4 [px] ++ tl)) pre.length (pre.length + 3)
      else pure (pre ++ (flat4 [px] ++ tl)))
      = Except.ok (pre ++ (flat4 [swap03If c px] ++ tl)) := by
  obtain ⟨b0, b1, b2, b3⟩ := px
  by_cases hc : c
  · rw [if_pos hc, swap03If_pos hc]
    simpa [flat4] using swapBytes_03 pre b0 b1 b2 b3 tl
  · rw [if_neg hc, swap03If_neg hc]
    rfl

theorem step12 (c : Prop) [Decidable c] (pre : List Nat) (px : Nat × Nat × Nat × Nat)
    (tl : List Nat) :
    (if c then swapBytes (pre ++ (flat4 [px] ++ tl)) (pre.length + 1) (pre.length + 2)
      else pure (pre ++ (flat4 [px] ++ tl)))
      = Except.ok (pre ++ (flat4 [swap12If c px] ++ tl)) := by
  obtain ⟨b0, b1, b2, b3⟩ := px
  by_cases hc : c
  · rw [if_pos hc, swap12If_pos hc]
    simpa [flat4] using swapBytes_12 pre b0 b1 b2 (b3 :: tl)
  · rw [if_neg hc, swap12If_neg hc]
    rfl

theorem step02 (c : Prop) [Decidable c] (pre : List Nat) (px : Nat × Nat × Nat × Nat)
    (tl : List Nat) :
    (if c then swapBytes (pre ++ (flat4 [px] ++ tl)) pre.length (pre.length + 2)
      else pure (pre ++ (flat4 [px] ++ tl)))
      = Except.ok (pre ++ (flat4 [swap02If c px] ++ tl)) := by
  obtain ⟨b0, b1, b2, b3⟩ := px
  by_cases hc : c
  · rw [if_pos hc, swap02If_pos hc]
    simpa [flat4] using swapBytes_02 pre b0 b1 b2 (b3 :: tl)
  · rw [if_neg hc, swap02If_neg hc]
    rfl

/-- One loop iteration on a four-byte pixel does the three conditional swaps. -/
theorem flipPixel_four (r g a : Nat) (pre : List Nat) (px : Nat × Nat × Nat × Nat)
    (tl : List Nat) :
    flipPixel r g a pre.length (pre ++ (flat4 [px] ++ tl))
      = .ok (pre ++ (flat4 [specPixel4 r g a px] ++ tl)) := by
  unfold flipPixel specPixel4
  rw [step03]
  simp only [bind, Except.bind]
  rw [step12]
  simp only [bind, Except.bind]
  rw [step02]

theorem flat4_cons (px : Nat × Nat × Nat × Nat) (pxs : List (Nat × Nat × Nat × Nat)) :
    flat4 (px :: pxs) = flat4 [px] ++ flat4 pxs := by
  obtain ⟨b0, b1, b2, b3⟩ := px
  rfl

theorem flat4_length (pxs : List (Nat × Nat × Nat × Nat)) :
    (flat4 pxs).length = 4 * pxs.length := by
  induction pxs with
  | nil => rfl
  | cons px pxs ih =>
    obtain ⟨b0, b1, b2, b3⟩ := px
    simp only [flat4, List.length_cons, ih]
    omega

/-- The loop bound is the product when neither `int` product overflows. -/
theorem loopBound_ok (bpp w h : Nat) (hbw : bpp * w < 2 ^ 31) (hbwh : bpp * w * h < 2 ^ 31) :
    loopBound bpp w h = .ok (bpp * w * h) := by
  simp only [loopBound, intMul, if_pos hbw, if_pos hbwh]

/-- The sum is the `int` sum when it does not overflow. -/
theorem intAdd_ok (a b : Nat) (hab : a + b < 2 ^ 31) : intAdd a b = .ok (a + b) := by
  simp only [intAdd, if_pos hab]

/-- A fault in the loop test is the result of the loop. -/
theorem flipLoop_bound_error (r g a bpp w h : Nat) (e : Fault)
    (hb : loopBound bpp w h = .error e) (fuel i : Nat) (p : List Nat) :
    flipLoop r g a bpp w h fuel i p = .error e := by
  cases fuel <;> simp only [flipLoop, hb]

/-- The loop, started at the end of the finished prefix `pre` with enough
fuel for the pixels that are left, rewrites each of them by `specPixel4`. -/
theorem flipLoop_flat4 (r g a w h : Nat) (hbw : 4 * w < 2 ^ 31) (hbwh : 4 * w * h < 2 ^ 31)
    (pxs : List (Nat × Nat × Nat × Nat)) :
    ∀ (pre : List Nat) (fuel : Nat), pxs.length ≤ fuel →
      4 * w * h = pre.length + 4 * pxs.length →
      flipLoop r g a 4 w h fuel pre.length (pre ++ flat4 pxs)
        = .ok (pre ++ flat4 (pxs.map (specPixel4 r g a))) := by
  induction pxs with
  | nil =>
    intro pre fuel _ hb
    have hn : ¬ pre.length < 4 * w * h := by simp at hb; omega
    cases fuel <;> simp [flipLoop, loopBound_ok 4 w h hbw hbwh, hn, flat4]
  | cons px pxs ih =>
    intro pre fuel hf hb
    cases fuel with
    | zero => simp at hf
    | succ f =>
      have hlt : pre.length < 4 * w * h := by simp at hb; omega
      have h4 : (pre ++ flat4 [specPixel4 r g a px]).length = pre.length + 4 := by
        simp [flat4_length]
      have hadd : intAdd pre.length 4 = .ok (pre.length + 4) :=
        intAdd_ok _ _ (by simp at hb; omega)
      have hi := ih (pre ++ flat4 [specPixel4 r g a px]) f (by simpa using hf)
        (by rw [h4]; simp at hb; omega)
      rw [h4] at hi
      rw [flipLoop]
      simp only [loopBound_ok 4 w h hbw hbwh, if_pos hlt]
      rw [flat4_cons, flipPixel_four]
      simp only [hadd, List.map_cons]
      rw [flat4_cons (specPixel4 r g a px) (pxs.map (specPixel4 r g a)),
        ← List.append_assoc, ← List.append_assoc]
      exact hi

theorem flat3_cons (px : Nat × Nat × Nat) (pxs : List (Nat × Nat × Nat)) :
    flat3 (px :: pxs) = flat3 [px] ++ flat3 pxs := by
  obtain ⟨b0, b1, b2⟩ := px
  rfl

theorem flat3_length (pxs : List (Nat × Nat × Nat)) :
    (flat3 pxs).length = 3 * pxs.length := by
  induction pxs with
  | nil => rfl
  | cons px pxs ih =>
    obtain ⟨b0, b1, b2⟩ := px
    simp only [flat3, List.length_cons, ih]
    omega

theorem step12_3 (c : Prop) [Decidable c] (pre : List Nat) (px : Nat × Nat × Nat)
    (tl : List Nat) :
    (if c then swapBytes (pre ++ (flat3 [px] ++ tl)) (pre.length + 1) (pre.length + 2)
      else pure (pre ++ (flat3 [px] ++ tl)))
      = Except.ok (pre ++ (flat3 [swap12If3 c px] ++ tl)) := by
  obtain ⟨b0, b1, b2⟩ := px
  by_cases hc : c
  · rw [if_pos hc, swap12If3, if_pos hc]
    simpa [flat3] using swapBytes_12 pre b0 b1 b2 tl
  · rw [if_neg hc, swap12If3, if_neg hc]
    rfl

theorem step02_3 (c : Prop) [Decidable c] (pre : List Nat) (px : Nat × Nat × Nat)
    (tl : List Nat) :
    (if c then swapBytes (pre ++ (flat3 [px] ++ tl)) pre.length (pre.length + 2)
      else pure (pre ++ (flat3 [px] ++ tl)))
      = Except.ok (pre ++ (flat3 [swap02If3 c px] ++ tl)) := by
  obtain ⟨b0, b1, b2⟩ := px
  by_cases hc : c
  · rw [if_pos hc, swap02If3, if_pos hc]
    simpa [flat3] using swapBytes_02 pre b0 b1 b2 tl
  · rw [if_neg hc, swap02If3, if_neg hc]
    rfl

/-- One loop iteration on a three-byte pixel, the alpha swap being off. -/
theorem flipPixel_three (r g a : Nat) (ha : a &&& 0xFF = 0) (pre : List Nat)
    (px : Nat × Nat × Nat) (tl : List Nat) :
    flipPixel r g a pre.length (pre ++ (flat3 [px] ++ tl))
      = .ok (pre ++ (flat3 [specPixel3 r g px] ++ tl)) := by
  have ha1 : ¬ (a &&& 0xFF ≠ 0) := not_not.mpr ha
  unfold flipPixel specPixel3
  rw [if_neg ha1]
  simp only [bind, Except.bind, pure, Except.pure]
  have h12 := step12_3 (g &&& 0xFF0000 ≠ 0) pre px tl
  simp only [pure, Except.pure] at h12
  rw [h12]
  have h02 := step02_3 (r &&& 0xFF0000 ≠ 0) pre (swap12If3 (g &&& 0xFF0000 ≠ 0) px) tl
  simp only [pure, Except.pure] at h02
  exact h02

/-- The loop on three-byte pixels, the alpha swap being off. -/
theorem flipLoop_flat3 (r g a w h : Nat) (hbw : 3 * w < 2 ^ 31) (hbwh : 3 * w * h < 2 ^ 31)
    (ha : a &&& 0xFF = 0) (pxs : List (Nat × Nat × Nat)) :
    ∀ (pre : List Nat) (fuel : Nat), pxs.length ≤ fuel →
      3 * w * h = pre.length + 3 * pxs.length →
      flipLoop r g a 3 w h fuel pre.length (pre ++ flat3 pxs)
        = .ok (pre ++ flat3 (pxs.map (specPixel3 r g))) := by
  induction pxs with
  | nil =>
    intro pre fuel _ hb
    have hn : ¬ pre.length < 3 * w * h := by simp at hb; omega
    cases fuel <;> simp [flipLoop, loopBound_ok 3 w h hbw hbwh, hn, flat3]
  | cons px pxs ih =>
    intro pre fuel hf hb
    cases fuel with
    | zero => simp at hf
    | succ f =>
      have hlt : pre.length < 3 * w * h := by simp at hb; omega
      have h3 : (pre ++ flat3 [specPixel3 r g px]).length = pre.length + 3 := by
        simp [flat3_length]
      have hadd : intAdd pre.length 3 = .ok (pre.length + 3) :=
        intAdd_ok _ _ (by simp at hb; omega)
      have hi := ih (pre ++ flat3 [specPixel3 r g px]) f (by simpa using hf)
        (by rw [h3]; simp at hb; omega)
      rw [h3] at hi
      rw [flipLoop]
      simp only [loopBound_ok 3 w h hbw hbwh, if_pos hlt]
      rw [flat3_cons, flipPixel_three r g a ha]
      simp only [hadd, List.map_cons]
      rw [flat3_cons (specPixel3 r g px) (pxs.map (specPixel3 r g)),
        ← List.append_assoc, ← List.append_assoc]
      exact hi

theorem exists_flat4 : ∀ (n : Nat) (p : List Nat), p.length = 4 * n →
    ∃ pxs : List (Nat × Nat × Nat × Nat), pxs.length = n ∧ flat4 pxs = p := by
  intro n
  induction n with
  | zero =>
    intro p hp
    exact ⟨[], rfl, (List.length_eq_zero.mp (by simpa using hp)).symm⟩
  | succ n ih =>
    intro p hp
    match p, hp with
    | b0 :: b1 :: b2 :: b3 :: tl, hp =>
      obtain ⟨pxs, hl, hf⟩ := ih tl (by simp at hp; omega)
      exact ⟨(b0, b1, b2, b3) :: pxs, by simp [hl], by simp [flat4, hf]⟩

theorem exists_flat3 : ∀ (n : Nat) (p : List Nat), p.length = 3 * n →
    ∃ pxs : List (Nat × Nat × Nat), pxs.length = n ∧ flat3 pxs = p := by
  intro n
  induction n with
  | zero =>
    intro p hp
    exact ⟨[], rfl, (List.length_eq_zero.mp (by simpa using hp)).symm⟩
  | succ n ih =>
    intro p hp
    match p, hp with
    | b0 :: b1 :: b2 :: tl, hp =>
      obtain ⟨pxs, hl, hf⟩ := ih tl (by simp at hp; omega)
      exact ⟨(b0, b1, b2) :: pxs, by simp [hl], by simp [flat3, hf]⟩

theorem pixel4At_flat4 (pxs : List (Nat × Nat × Nat × Nat)) :
    ∀ k, pixel4At (flat4 pxs) k = pxs[k]? := by
  induction pxs with
  | nil => intro k; simp [pixel4At, flat4]
  | cons px pxs ih =>
    intro k
    obtain ⟨b0, b1, b2, b3⟩ := px
    cases k with
    | zero => simp [pixel4At, flat4]
    | succ k =>
      have e0 : 4 * (k + 1) = 4 * k + 3 + 1 := by omega
      have e1 : 4 * (k + 1) + 1 = 4 * k + 1 + 3 + 1 := by omega
      have e2 : 4 * (k + 1) + 2 = 4 * k + 2 + 3 + 1 := by omega
      have e3 : 4 * (k + 1) + 3 = 4 * k + 3 + 3 + 1 := by omega
      have h := ih k
      simp only [pixel4At] at h
      simp only [pixel4At, flat4, e0, e1, e2, e3, List.getElem?_cons_succ]
      simpa using h

theorem pixel3At_flat3 (pxs : List (Nat × Nat × Nat)) :
    ∀ k, pixel3At (flat3 pxs) k = pxs[k]? := by
  induction pxs with
  | nil => intro k; simp [pixel3At, flat3]
  | cons px pxs ih =>
    intro k
    obtain ⟨b0, b1, b2⟩ := px
    cases k with
    | zero => simp [pixel3At, flat3]
    | succ k =>
      have e0 : 3 * (k + 1) = 3 * k + 2 + 1 := by omega
      have e1 : 3 * (k + 1) + 1 = 3 * k + 1 + 2 + 1 := by omega
      have e2 : 3 * (k + 1) + 2 = 3 * k + 2 + 2 + 1 := by omega
      have h := ih k
      simp only [pixel3At] at h
      simp only [pixel3At, flat3, e0, e1, e2, List.getElem?_cons_succ]
      simpa using h

theorem pixel4At_eq_some (p : List Nat) (k b0 b1 b2 b3 : Nat) :
    pixel4At p k = some (b0, b1, b2, b3) ↔
      p[4 * k]? = some b0 ∧ p[4 * k + 1]? = some b1 ∧
        p[4 * k + 2]? = some b2 ∧ p[4 * k + 3]? = some b3 := by
  unfold pixel4At
  split <;> simp_all

theorem pixel3At_eq_some (p : List Nat) (k b0 b1 b2 : Nat) :
    pixel3At p k = some (b0, b1, b2) ↔
      p[3 * k]? = some b0 ∧ p[3 * k + 1]? = some b1 ∧ p[3 * k + 2]? = some b2 := by
  unfold pixel3At
  split <;> simp_all

/-! ## The normalization as a whole -/

/-- On a four-byte-per-pixel surface whose buffer has the stated length the
normalization returns, and it rewrites every pixel by `specPixel4` when the
red mask has a bit in `0xFF000000` or `0x00FF0000`, and by nothing otherwise;
the `int` products of the loop test must not overflow when the loop is
entered. -/
theorem flipPixels_four (s : SDL_Surface) (h4 : s.format.BytesPerPixel = 4)
    (hlen : s.pixels.length = 4 * (s.w * s.h))
    (hint : s.format.Rmask &&& 0xFF000000 ≠ 0 ∨ s.format.Rmask &&& 0xFF0000 ≠ 0 →
      4 * s.w < 2 ^ 31 ∧ 4 * s.w * s.h < 2 ^ 31) :
    ∃ pxs : List (Nat × Nat × Nat × Nat), pxs.length = s.w * s.h ∧ s.pixels = flat4 pxs ∧
      flipPixels s = .ok (flat4 (pxs.map
        (if s.format.Rmask &&& 0xFF000000 ≠ 0 ∨ s.format.Rmask &&& 0xFF0000 ≠ 0 then
          specPixel4 s.format.Rmask s.format.Gmask s.format.Amask else id))) := by
  obtain ⟨pxs, hl, hf⟩ := exists_flat4 (s.w * s.h) s.pixels hlen
  refine ⟨pxs, hl, hf.symm, ?_⟩
  unfold flipPixels
  by_cases hgd : s.format.Rmask &&& 0xFF000000 ≠ 0 ∨ s.format.Rmask &&& 0xFF0000 ≠ 0
  · simp only [if_pos hgd, h4, ← hf]
    have h := flipLoop_flat4 s.format.Rmask s.format.Gmask s.format.Amask s.w s.h
      (hint hgd).1 (hint hgd).2 pxs [] (s.w * s.h) (le_of_eq hl) (by simp [hl, Nat.mul_assoc])
    simpa using h
  · simp only [if_neg hgd, List.map_id, hf]

/-- On a three-byte-per-pixel surface whose alpha mask has no bit in `0xFF`
and whose buffer has the stated length the normalization returns, and it
rewrites every pixel by `specPixel3` when the red mask has a bit in
`0xFF000000` or `0x00FF0000`, and by nothing otherwise; the `int` products of
the loop test must not overflow when the loop is entered. -/
theorem flipPixels_three (s : SDL_Surface) (h3 : s.format.BytesPerPixel = 3)
    (ha : s.format.Amask &&& 0xFF = 0) (hlen : s.pixels.length = 3 * (s.w * s.h))
    (hint : s.format.Rmask &&& 0xFF000000 ≠ 0 ∨ s.format.Rmask &&& 0xFF0000 ≠ 0 →
      3 * s.w < 2 ^ 31 ∧ 3 * s.w * s.h < 2 ^ 31) :
    ∃ pxs : List (Nat × Nat × Nat), pxs.length = s.w * s.h ∧ s.pixels = flat3 pxs ∧
      flipPixels s = .ok (flat3 (pxs.map
        (if s.format.Rmask &&& 0xFF000000 ≠ 0 ∨ s.format.Rmask &&& 0xFF0000 ≠ 0 then
          specPixel3 s.format.Rmask s.format.Gmask else id))) := by
  obtain ⟨pxs, hl, hf⟩ := exists_flat3 (s.w * s.h) s.pixels hlen
  refine ⟨pxs, hl, hf.symm, ?_⟩
  unfold flipPixels
  by_cases hgd : s.format.Rmask &&& 0xFF000000 ≠ 0 ∨ s.format.Rmask &&& 0xFF0000 ≠ 0
  · simp only [if_pos hgd, h3, ← hf]
    have h := flipLoop_flat3 s.format.Rmask s.format.Gmask s.format.Amask s.w s.h
      (hint hgd).1 (hint hgd).2 ha pxs [] (s.w * s.h) (le_of_eq hl)
      (by simp [hl, Nat.mul_assoc])
    simpa using h
  · simp only [if_neg hgd, List.map_id, hf]

/-- When the file exists, the allocation succeeds, the decoder returns the
surface `s` and the normalization of `s` returns `q`, `S2D_CreateImage`
returns an image that holds `s` with the pixels `q`. -/
theorem S2D_CreateImage_ok (env : LoadEnv) (path : String) (s : SDL_Surface) (q : List Nat)
    (hfile : env.S2D_FileExists path = true) (hmem : env.mallocOk = true)
    (hload : env.IMG_Load path = some s) (hq : flipPixels s = .ok q) :
    ∃ img, (S2D_CreateImage env path).result = .ok (some img) ∧
      img.surface = { s with pixels := q } ∧ img.surface_live = true ∧ img.texture_id = 0 ∧
      img.format = (if s.format.BytesPerPixel = 4 then GL_RGBA else GL_RGB) := by
  simp [S2D_CreateImage, hfile, hmem, hload, hq]

/-- The bytes of pixel `k` before and after a pixelwise rewriting `f` of a
four-byte-per-pixel buffer. -/
theorem flat4_map_bytes (f : Nat × Nat × Nat × Nat → Nat × Nat × Nat × Nat)
    (pxs : List (Nat × Nat × Nat × Nat)) (k : Nat) (hk : k < pxs.length) :
    ∃ b0 b1 b2 b3 c0 c1 c2 c3, f (b0, b1, b2, b3) = (c0, c1, c2, c3) ∧
      ((flat4 pxs)[4 * k]? = some b0 ∧ (flat4 pxs)[4 * k + 1]? = some b1 ∧
        (flat4 pxs)[4 * k + 2]? = some b2 ∧ (flat4 pxs)[4 * k + 3]? = some b3) ∧
      ((flat4 (pxs.map f))[4 * k]? = some c0 ∧ (flat4 (pxs.map f))[4 * k + 1]? = some c1 ∧
        (flat4 (pxs.map f))[4 * k + 2]? = some c2 ∧
        (flat4 (pxs.map f))[4 * k + 3]? = some c3) := by
  rcases hpx : pxs[k] with ⟨b0, b1, b2, b3⟩
  rcases hfx : f (b0, b1, b2, b3) with ⟨c0, c1, c2, c3⟩
  have h1 : pxs[k]? = some (b0, b1, b2, b3) := by
    rw [List.getElem?_eq_getElem hk, hpx]
  have h2 : (pxs.map f)[k]? = some (c0, c1, c2, c3) := by
    rw [List.getElem?_map, h1, Option.map_some', hfx]
  refine ⟨b0, b1, b2, b3, c0, c1, c2, c3, hfx, ?_, ?_⟩
  · rw [← pixel4At_eq_some, pixel4At_flat4, h1]
  · rw [← pixel4At_eq_some, pixel4At_flat4, h2]

/-- The bytes of pixel `k` before and after a pixelwise rewriting `f` of a
three-byte-per-pixel buffer. -/
theorem flat3_map_bytes (f : Nat × Nat × Nat → Nat × Nat × Nat)
    (pxs : List (Nat × Nat × Nat)) (k : Nat) (hk : k < pxs.length) :
    ∃ b0 b1 b2 c0 c1 c2, f (b0, b1, b2) = (c0, c1, c2) ∧
      ((flat3 pxs)[3 * k]? = some b0 ∧ (flat3 pxs)[3 * k + 1]? = some b1 ∧
        (flat3 pxs)[3 * k + 2]? = some b2) ∧
      ((flat3 (pxs.map f))[3 * k]? = some c0 ∧ (flat3 (pxs.map f))[3 * k + 1]? = some c1 ∧
        (flat3 (pxs.map f))[3 * k + 2]? = some c2) := by
  rcases hpx : pxs[k] with ⟨b0, b1, b2⟩
  rcases hfx : f (b0, b1, b2) with ⟨c0, c1, c2⟩
  have h1 : pxs[k]? = some (b0, b1, b2) := by
    rw [List.getElem?_eq_getElem hk, hpx]
  have h2 : (pxs.map f)[k]? = some (c0, c1, c2) := by
    rw [List.getElem?_map, h1, Option.map_some', hfx]
  refine ⟨b0, b1, b2, c0, c1, c2, hfx, ?_, ?_⟩
  · rw [← pixel3At_eq_some, pixel3At_flat3, h1]
  · rw [← pixel3At_eq_some, pixel3At_flat3, h2]

/-- When the loop is entered and its test overflows, the normalization has
no result. -/
theorem flipPixels_bound_error (s : SDL_Surface) (e : Fault)
    (hgd : s.format.Rmask &&& 0xFF000000 ≠ 0 ∨ s.format.Rmask &&& 0xFF0000 ≠ 0)
    (hb : loopBound s.format.BytesPerPixel s.w s.h = .error e) :
    flipPixels s = .error e := by
  unfold flipPixels
  simp only [if_pos hgd]
  exact flipLoop_bound_error _ _ _ _ _ _ e hb _ _ _

/-- A fault of the normalization is the result of `S2D_CreateImage`. -/
theorem S2D_CreateImage_fault (env : LoadEnv) (path : String) (s : SDL_Surface) (e : Fault)
    (hfile : env.S2D_FileExists path = true) (hmem : env.mallocOk = true)
    (hload : env.IMG_Load path = some s) (hq : flipPixels s = .error e) :
    (S2D_CreateImage env path).result = .error e := by
  simp [S2D_CreateImage, hfile, hmem, hload, hq]

/-- The buffer of `hugeSurface f` has `2 ^ 31` bytes. -/
theorem hugeSurface_length (f : SDL_PixelFormat) :
    (hugeSurface f).pixels.length = 2147483648 := by
  have h : ∀ n : Nat, (1 :: 2 :: 3 :: 4 :: List.replicate n 0).length = n + 4 := by
    intro n
    simp
  exact (h 2147483644).trans (by norm_num)

/-! ## The claims -/

/-- C1 as stated fails: the surface `hugeSurface bgra2x1.format` has 4 bytes
per pixel, a buffer of length `w * h * 4`, red mask `0x00FF0000`, a green mask
with no bit in `0x00FF0000` and an alpha mask with no bit in `0x000000FF`,
but its byte count `4 * 65536 * 8192` is `2 ^ 31`: the `int` product of the
loop test overflows and `S2D_CreateImage` returns no image with exchanged
bytes. -/
theorem C1_counterexample :
    (hugeSurface bgra2x1.format).format.BytesPerPixel = 4 ∧
      (hugeSurface bgra2x1.format).pixels.length
        = (hugeSurface bgra2x1.format).w * (hugeSurface bgra2x1.format).h
          * (hugeSurface bgra2x1.format).format.BytesPerPixel ∧
      (hugeSurface bgra2x1.format).format.Rmask = 0x00FF0000 ∧
      (hugeSurface bgra2x1.format).format.Gmask &&& 0x00FF0000 = 0 ∧
      (hugeSurface bgra2x1.format).format.Amask &&& 0x000000FF = 0 ∧
      4 * 65536 * 8192 = 2 ^ 31 ∧
      (S2D_CreateImage (envOf (hugeSurface bgra2x1.format)) "huge.png").result
        = .error .intOverflow ∧
      ¬ ∃ img, (S2D_CreateImage (envOf (hugeSurface bgra2x1.format)) "huge.png").result
        = .ok (some img) := by
  have hres : (S2D_CreateImage (envOf (hugeSurface bgra2x1.format)) "huge.png").result
      = .error .intOverflow :=
    S2D_CreateImage_fault _ _ (hugeSurface bgra2x1.format) _ rfl rfl rfl
      (flipPixels_bound_error _ _ (Or.inr (by decide)) (by decide))
  refine ⟨rfl, ?_, rfl, by decide, by decide, by norm_num, hres, ?_⟩
  · rw [hugeSurface_length]
    rfl
  · rintro ⟨img, himg⟩
    rw [hres] at himg
    exact absurd himg (by simp)

/-- C1, amended. Red/blue swap: with `BytesPerPixel` 3 or 4, `int` products
`BytesPerPixel * w` and `BytesPerPixel * w * h` below `2 ^ 31`, a buffer of
length `w * h * BytesPerPixel`, red mask `0x00FF0000`, a green mask with no
bit in `0x00FF0000` and an alpha mask with no bit in `0x000000FF`,
`S2D_CreateImage` returns an image whose buffer has the same length and in
which every pixel has its bytes 0 and 2 exchanged and its other bytes
unchanged; the 2x1 four-byte buffer `[10,20,30,40, 50,60,70,80]` becomes
`[30,20,10,40, 70,60,50,80]`. -/
theorem C1_red_blue_swap (env : LoadEnv) (path : String) (s : SDL_Surface)
    (hfile : env.S2D_FileExists path = true) (hmem : env.mallocOk = true)
    (hload : env.IMG_Load path = some s)
    (hbpp : s.format.BytesPerPixel = 3 ∨ s.format.BytesPerPixel = 4)
    (hbw : s.format.BytesPerPixel * s.w < 2 ^ 31)
    (hbwh : s.format.BytesPerPixel * s.w * s.h < 2 ^ 31)
    (hlen : s.pixels.length = s.w * s.h * s.format.BytesPerPixel)
    (hr : s.format.Rmask = 0x00FF0000) (hg : s.format.Gmask &&& 0x00FF0000 = 0)
    (ha : s.format.Amask &&& 0x000000FF = 0) :
    ∃ img, (S2D_CreateImage env path).result = .ok (some img) ∧
      img.surface.pixels.length = s.pixels.length ∧
      (∀ k j, k < s.w * s.h → j < s.format.BytesPerPixel →
        img.surface.pixels[s.format.BytesPerPixel * k + j]? =
          s.pixels[s.format.BytesPerPixel * k + (if j = 0 then 2 else if j = 2 then 0 else j)]?) ∧
      (s.w = 2 → s.h = 1 → s.format.BytesPerPixel = 4 →
        s.pixels = [10, 20, 30, 40, 50, 60, 70, 80] →
        img.surface.pixels = [30, 20, 10, 40, 70, 60, 50, 80]) := by
  have hr1 : s.format.Rmask &&& 0xFF0000 ≠ 0 := by rw [hr]; decide
  have hgd : s.format.Rmask &&& 0xFF000000 ≠ 0 ∨ s.format.Rmask &&& 0xFF0000 ≠ 0 := Or.inr hr1
  have hg1 : ¬ (s.format.Gmask &&& 0xFF0000 ≠ 0) := not_not.mpr hg
  have ha1 : ¬ (s.format.Amask &&& 0xFF ≠ 0) := not_not.mpr ha
  rcases hbpp with h3 | h4
  · rw [h3] at hbw hbwh
    obtain ⟨pxs, hl, hp, hq⟩ := flipPixels_three s h3 ha (by rw [hlen, h3]; ring)
      (fun _ => ⟨hbw, hbwh⟩)
    rw [if_pos hgd] at hq
    obtain ⟨img, hres, hsurf, -, -, -⟩ := S2D_CreateImage_ok env path s _ hfile hmem hload hq
    refine ⟨img, hres, ?_, ?_, ?_⟩
    · rw [hsurf, hp]
      simp [flat3_length]
    · intro k j hk hj
      rw [hsurf, hp, h3]
      rw [h3] at hj
      obtain ⟨b0, b1, b2, c0, c1, c2, hf, ⟨p0, p1, p2⟩, ⟨q0, q1, q2⟩⟩ :=
        flat3_map_bytes (specPixel3 s.format.Rmask s.format.Gmask) pxs k (by rw [hl]; exact hk)
      simp only [specPixel3, swap12If3, swap02If3, if_neg hg1, if_pos hr1, Prod.mk.injEq] at hf
      obtain ⟨rfl, rfl, rfl⟩ := hf
      interval_cases j <;> simp [p0, p1, p2, q0, q1, q2]
    · intro _ _ h4
      omega
  · rw [h4] at hbw hbwh
    obtain ⟨pxs, hl, hp, hq⟩ := flipPixels_four s h4 (by rw [hlen, h4]; ring)
      (fun _ => ⟨hbw, hbwh⟩)
    rw [if_pos hgd] at hq
    obtain ⟨img, hres, hsurf, -, -, -⟩ := S2D_CreateImage_ok env path s _ hfile hmem hload hq
    refine ⟨img, hres, ?_, ?_, ?_⟩
    · rw [hsurf, hp]
      simp [flat4_length]
    · intro k j hk hj
      rw [hsurf, hp, h4]
      rw [h4] at hj
      obtain ⟨b0, b1, b2, b3, c0, c1, c2, c3, hf, ⟨p0, p1, p2, p3⟩, ⟨q0, q1, q2, q3⟩⟩ :=
        flat4_map_bytes (specPixel4 s.format.Rmask s.format.Gmask s.format.Amask) pxs k
          (by rw [hl]; exact hk)
      simp only [specPixel4, swap03If_neg ha1, swap12If_neg hg1, swap02If_pos hr1,
        Prod.mk.injEq] at hf
      obtain ⟨rfl, rfl, rfl, rfl⟩ := hf
      interval_cases j <;> simp [p0, p1, p2, p3, q0, q1, q2, q3]
    · intro hw hh _ hpix
      rw [hw, hh] at hl
      rw [hsurf]
      match pxs, hl with
      | [(x0, x1, x2, x3), (y0, y1, y2, y3)], _ =>
        rw [hpix] at hp
        simp only [flat4, List.cons.injEq, and_true] at hp
        obtain ⟨rfl, rfl, rfl, rfl, rfl, rfl, rfl, rfl⟩ := hp
        simp only [List.map_cons, List.map_nil, specPixel4, swap03If_neg ha1, swap12If_neg hg1,
          swap02If_pos hr1]
        rfl

/-- C1 amended, at the 2x1 surface `bgra2x1`. -/
theorem C1_red_blue_swap_witness :
    (bgra2x1.format.Rmask = 0x00FF0000 ∧ bgra2x1.format.Gmask &&& 0x00FF0000 = 0 ∧
      bgra2x1.format.Amask &&& 0x000000FF = 0 ∧
      bgra2x1.format.BytesPerPixel * bgra2x1.w < 2 ^ 31 ∧
      bgra2x1.format.BytesPerPixel * bgra2x1.w * bgra2x1.h < 2 ^ 31 ∧
      bgra2x1.pixels.length = bgra2x1.w * bgra2x1.h * bgra2x1.format.BytesPerPixel) ∧
    ∃ img, (S2D_CreateImage (envOf bgra2x1) "bgra.png").result = .ok (some img) ∧
      img.surface.pixels.length = bgra2x1.pixels.length ∧
      (∀ k j, k < bgra2x1.w * bgra2x1.h → j < bgra2x1.format.BytesPerPixel →
        img.surface.pixels[bgra2x1.format.BytesPerPixel * k + j]? =
          bgra2x1.pixels[bgra2x1.format.BytesPerPixel * k +
            (if j = 0 then 2 else if j = 2 then 0 else j)]?) ∧
      (bgra2x1.w = 2 → bgra2x1.h = 1 → bgra2x1.format.BytesPerPixel = 4 →
        bgra2x1.pixels = [10, 20, 30, 40, 50, 60, 70, 80] →
        img.surface.pixels = [30, 20, 10, 40, 70, 60, 50, 80]) :=
  ⟨⟨rfl, by decide, by decide, by decide, by decide, rfl⟩,
    C1_red_blue_swap (envOf bgra2x1) "bgra.png" bgra2x1 rfl rfl rfl (Or.inr rfl)
      (by decide) (by decide) rfl rfl (by decide) (by decide)⟩

/-- C2 as stated fails: the surface `hugeSurface abgr2x1.format` has 4 bytes
per pixel, a buffer of length `4 * w * h`, red mask `0xFF000000`, green mask
`0x00FF0000` and alpha mask `0x000000FF`, but its byte count
`4 * 65536 * 8192` is `2 ^ 31`: the `int` product of the loop test overflows
and `S2D_CreateImage` returns no image with reversed pixels. -/
theorem C2_counterexample :
    (hugeSurface abgr2x1.format).format.BytesPerPixel = 4 ∧
      (hugeSurface abgr2x1.format).pixels.length
        = 4 * (hugeSurface abgr2x1.format).w * (hugeSurface abgr2x1.format).h ∧
      (hugeSurface abgr2x1.format).format.Rmask = 0xFF000000 ∧
      (hugeSurface abgr2x1.format).format.Gmask = 0x00FF0000 ∧
      (hugeSurface abgr2x1.format).format.Amask = 0x000000FF ∧
      4 * 65536 * 8192 = 2 ^ 31 ∧
      (S2D_CreateImage (envOf (hugeSurface abgr2x1.format)) "huge.png").result
        = .error .intOverflow ∧
      ¬ ∃ img, (S2D_CreateImage (envOf (hugeSurface abgr2x1.format)) "huge.png").result
        = .ok (some img) := by
  have hres : (S2D_CreateImage (envOf (hugeSurface abgr2x1.format)) "huge.png").result
      = .error .intOverflow :=
    S2D_CreateImage_fault _ _ (hugeSurface abgr2x1.format) _ rfl rfl rfl
      (flipPixels_bound_error _ _ (Or.inl (by decide)) (by decide))
  refine ⟨rfl, ?_, rfl, rfl, rfl, by norm_num, hres, ?_⟩
  · rw [hugeSurface_length]
    rfl
  · rintro ⟨img, himg⟩
    rw [hres] at himg
    exact absurd himg (by simp)

/-- C2, amended. Full reversal: on a four-byte-per-pixel buffer of length
`4 * w * h` whose `int` products `4 * w` and `4 * w * h` are below `2 ^ 31`,
with red mask `0xFF000000`, green mask `0x00FF0000` and alpha mask
`0x000000FF`, `S2D_CreateImage` returns an image whose buffer has the same
length and in which byte `j` of every pixel is byte `3 - j` of the decoded
pixel: a pixel stored as `[A,B,G,R]` becomes `[R,G,B,A]`. -/
theorem C2_full_reversal (env : LoadEnv) (path : String) (s : SDL_Surface)
    (hfile : env.S2D_FileExists path = true) (hmem : env.mallocOk = true)
    (hload : env.IMG_Load path = some s)
    (h4 : s.format.BytesPerPixel = 4) (hbw : 4 * s.w < 2 ^ 31)
    (hbwh : 4 * s.w * s.h < 2 ^ 31) (hlen : s.pixels.length = 4 * s.w * s.h)
    (hr : s.format.Rmask = 0xFF000000) (hg : s.format.Gmask = 0x00FF0000)
    (ha : s.format.Amask = 0x000000FF) :
    ∃ img, (S2D_CreateImage env path).result = .ok (some img) ∧
      img.surface.pixels.length = s.pixels.length ∧
      ∀ k j, k < s.w * s.h → j < 4 →
        img.surface.pixels[4 * k + j]? = s.pixels[4 * k + (3 - j)]? := by
  have hr0 : s.format.Rmask &&& 0xFF000000 ≠ 0 := by rw [hr]; decide
  have hr1 : ¬ (s.format.Rmask &&& 0xFF0000 ≠ 0) := by rw [hr]; decide
  have hg1 : s.format.Gmask &&& 0xFF0000 ≠ 0 := by rw [hg]; decide
  have ha1 : s.format.Amask &&& 0xFF ≠ 0 := by rw [ha]; decide
  have hgd : s.format.Rmask &&& 0xFF000000 ≠ 0 ∨ s.format.Rmask &&& 0xFF0000 ≠ 0 := Or.inl hr0
  obtain ⟨pxs, hl, hp, hq⟩ := flipPixels_four s h4 (by rw [hlen]; ring)
    (fun _ => ⟨hbw, hbwh⟩)
  rw [if_pos hgd] at hq
  obtain ⟨img, hres, hsurf, -, -, -⟩ := S2D_CreateImage_ok env path s _ hfile hmem hload hq
  refine ⟨img, hres, ?_, ?_⟩
  · rw [hsurf, hp]
    simp [flat4_length]
  · intro k j hk hj
    rw [hsurf, hp]
    obtain ⟨b0, b1, b2, b3, c0, c1, c2, c3, hf, ⟨p0, p1, p2, p3⟩, ⟨q0, q1, q2, q3⟩⟩ :=
      flat4_map_bytes (specPixel4 s.format.Rmask s.format.Gmask s.format.Amask) pxs k
        (by rw [hl]; exact hk)
    simp only [specPixel4, swap03If_pos ha1, swap12If_pos hg1, swap02If_neg hr1,
      Prod.mk.injEq] at hf
    obtain ⟨rfl, rfl, rfl, rfl⟩ := hf
    interval_cases j <;> simp [p0, p1, p2, p3, q0, q1, q2, q3]

/-- C2 amended, at the 2x1 surface `abgr2x1`: `[10,20,30,40, 50,60,70,80]`
becomes `[40,30,20,10, 80,70,60,50]`. -/
theorem C2_full_reversal_witness :
    ((S2D_CreateImage (envOf abgr2x1) "abgr.png").result.map
        (Option.map fun img => img.surface.pixels)
      = .ok (some [40, 30, 20, 10, 80, 70, 60, 50])) ∧
    (4 * abgr2x1.w < 2 ^ 31 ∧ 4 * abgr2x1.w * abgr2x1.h < 2 ^ 31) ∧
    ∃ img, (S2D_CreateImage (envOf abgr2x1) "abgr.png").result = .ok (some img) ∧
      img.surface.pixels.length = abgr2x1.pixels.length ∧
      ∀ k j, k < abgr2x1.w * abgr2x1.h → j < 4 →
        img.surface.pixels[4 * k + j]? = abgr2x1.pixels[4 * k + (3 - j)]? :=
  ⟨rfl, ⟨by decide, by decide⟩,
    C2_full_reversal (envOf abgr2x1) "abgr.png" abgr2x1 rfl rfl rfl rfl (by decide) (by decide)
      rfl rfl rfl rfl⟩

/-- C3. Canonical input is untouched: whatever the buffer, the bytes per
pixel and the green and alpha masks are, if the red mask has no bit in
`0xFFFF0000` then `S2D_CreateImage` returns an image whose pixel buffer is the
decoded buffer. -/
theorem C3_canonical_untouched (env : LoadEnv) (path : String) (s : SDL_Surface)
    (hfile : env.S2D_FileExists path = true) (hmem : env.mallocOk = true)
    (hload : env.IMG_Load path = some s)
    (hr : s.format.Rmask &&& 0xFFFF0000 = 0) :
    ∃ img, (S2D_CreateImage env path).result = .ok (some img) ∧
      img.surface.pixels = s.pixels := by
  have e1 : (0xFFFF0000 : Nat) &&& 0xFF000000 = 0xFF000000 := by decide
  have e2 : (0xFFFF0000 : Nat) &&& 0xFF0000 = 0xFF0000 := by decide
  have h1 : s.format.Rmask &&& 0xFF000000 = 0 := by
    rw [← e1, ← Nat.and_assoc, hr]
    simp
  have h2 : s.format.Rmask &&& 0xFF0000 = 0 := by
    rw [← e2, ← Nat.and_assoc, hr]
    simp
  have hq : flipPixels s = .ok s.pixels := by
    simp [flipPixels, h1, h2]
  obtain ⟨img, hres, hsurf, -, -, -⟩ := S2D_CreateImage_ok env path s _ hfile hmem hload hq
  exact ⟨img, hres, by rw [hsurf]⟩

/-- C3, at the 2x1 surface `rgba2x1`. -/
theorem C3_canonical_untouched_witness :
    rgba2x1.format.Rmask &&& 0xFFFF0000 = 0 ∧
    ∃ img, (S2D_CreateImage (envOf rgba2x1) "rgba.png").result = .ok (some img) ∧
      img.surface.pixels = rgba2x1.pixels :=
  ⟨by decide, C3_canonical_untouched (envOf rgba2x1) "rgba.png" rgba2x1 rfl rfl rfl (by decide)⟩

theorem swapBytes_ne_outOfFuel (p : List Nat) (i j : Nat) :
    swapBytes p i j ≠ .error .outOfFuel := by
  unfold swapBytes
  split
  · simp
  · split <;> simp

theorem flipPixel_ne_outOfFuel (r g a i : Nat) (p : List Nat) :
    flipPixel r g a i p ≠ .error .outOfFuel := by
  unfold flipPixel
  have key : ∀ (c : Prop) [Decidable c] (q : List Nat) (x y : Nat),
      (if c then swapBytes q x y else pure q) ≠ Except.error Fault.outOfFuel := by
    intro c _ q x y
    by_cases hc : c
    · rw [if_pos hc]
      exact swapBytes_ne_outOfFuel q x y
    · rw [if_neg hc]
      simp [pure, Except.pure]
  simp only [bind, Except.bind]
  cases h1 : (if a &&& 0xFF ≠ 0 then swapBytes p i (i + 3) else pure p) with
  | error e =>
    intro h
    simp only [Except.error.injEq] at h
    exact key _ p i (i + 3) (h ▸ h1)
  | ok p1 =>
    simp only
    cases h2 : (if g &&& 0xFF0000 ≠ 0 then swapBytes p1 (i + 1) (i + 2) else pure p1) with
    | error e =>
      intro h
      simp only [Except.error.injEq] at h
      exact key _ p1 (i + 1) (i + 2) (h ▸ h2)
    | ok p2 =>
      simp only
      exact key _ p2 i (i + 2)

theorem intMul_ne_outOfFuel (a b : Nat) : intMul a b ≠ .error .outOfFuel := by
  unfold intMul
  split <;> simp

theorem loopBound_ne_outOfFuel (bpp w h : Nat) : loopBound bpp w h ≠ .error .outOfFuel := by
  unfold loopBound
  cases h1 : intMul bpp w with
  | error e =>
    intro h2
    simp only [Except.error.injEq] at h2
    exact intMul_ne_outOfFuel bpp w (h2 ▸ h1)
  | ok bw => exact intMul_ne_outOfFuel bw h

theorem loopBound_eq (bpp w h bound : Nat) (hb : loopBound bpp w h = .ok bound) :
    bound = bpp * w * h := by
  by_cases h1 : bpp * w < 2 ^ 31
  · by_cases h2 : bpp * w * h < 2 ^ 31
    · simp only [loopBound, intMul, if_pos h1, if_pos h2, Except.ok.injEq] at hb
      exact hb.symm
    · simp only [loopBound, intMul, if_pos h1, if_neg h2] at hb
      exact absurd hb (by simp)
  · simp only [loopBound, intMul, if_neg h1] at hb
    exact absurd hb (by simp)

/-- The loop never stops for lack of fuel when the fuel covers the bytes
that are left. -/
theorem flipLoop_ne_outOfFuel (r g a bpp w h : Nat) :
    ∀ (fuel i : Nat) (p : List Nat), bpp * w * h ≤ i + fuel * bpp →
      flipLoop r g a bpp w h fuel i p ≠ .error .outOfFuel := by
  intro fuel
  induction fuel with
  | zero =>
    intro i p hb
    unfold flipLoop
    cases hbd : loopBound bpp w h with
    | error e =>
      intro h1
      simp only [Except.error.injEq] at h1
      exact loopBound_ne_outOfFuel bpp w h (h1 ▸ hbd)
    | ok bound =>
      have hn : ¬ i < bound := by rw [loopBound_eq bpp w h bound hbd]; omega
      simp [hn]
  | succ f ih =>
    intro i p hb
    unfold flipLoop
    cases hbd : loopBound bpp w h with
    | error e =>
      intro h1
      simp only [Except.error.injEq] at h1
      exact loopBound_ne_outOfFuel bpp w h (h1 ▸ hbd)
    | ok bound =>
      simp only
      by_cases hlt : i < bound
      · rw [if_pos hlt]
        cases hp : flipPixel r g a i p with
        | error e =>
          intro h1
          simp only [Except.error.injEq] at h1
          exact flipPixel_ne_outOfFuel r g a i p (h1 ▸ hp)
        | ok p1 =>
          simp only
          by_cases hadd : i + bpp < 2 ^ 31
          · simp only [intAdd, if_pos hadd]
            exact ih (i + bpp) p1 (by rw [Nat.succ_mul] at hb; omega)
          · simp only [intAdd, if_neg hadd]
            simp
      · rw [if_neg hlt]
        simp

/-- The fuel `w * h` that `flipPixels` hands to the loop is always enough. -/
theorem flipPixels_ne_outOfFuel (s : SDL_Surface) : flipPixels s ≠ .error .outOfFuel := by
  unfold flipPixels
  simp only
  split
  · exact flipLoop_ne_outOfFuel _ _ _ _ _ _ _ _ _ (by
      rw [Nat.zero_add, Nat.mul_assoc, Nat.mul_comm])
  · simp

/-- What a returned image says about the call that made it. -/
theorem S2D_CreateImage_some (env : LoadEnv) (path : String) (img : S2D_Image)
    (hres : (S2D_CreateImage env path).result = .ok (some img)) :
    ∃ s q, env.S2D_FileExists path = true ∧ env.mallocOk = true ∧
      env.IMG_Load path = some s ∧ flipPixels s = .ok q ∧
      img.surface = { s with pixels := q } ∧ img.surface_live = true ∧ img.texture_id = 0 ∧
      img.format = (if s.format.BytesPerPixel = 4 then GL_RGBA else GL_RGB) := by
  unfold S2D_CreateImage at hres
  by_cases hfile : env.S2D_FileExists path = true
  · by_cases hmem : env.mallocOk = true
    · cases hload : env.IMG_Load path with
      | none => simp [hfile, hmem, hload] at hres
      | some s =>
        cases hq : flipPixels s with
        | error e => simp [hfile, hmem, hload, hq] at hres
        | ok q =>
          simp only [hfile, hmem, hload, hq, Bool.not_true, Bool.false_eq_true, if_false,
            Except.ok.injEq, Option.some.injEq] at hres
          subst hres
          exact ⟨s, q, hfile, hmem, rfl, hq, rfl, rfl, rfl, rfl⟩
    · simp [hfile, hmem] at hres
  · simp [hfile] at hres

/-- C4. Layout derivation: an image returned by `S2D_CreateImage` comes from a
decoded surface, and its format is `GL_RGBA` when that surface has 4 bytes
per pixel and `GL_RGB` when it has 3, whatever the masks and the pixels are;
the two formats differ. -/
theorem C4_layout_derivation (env : LoadEnv) (path : String) (img : S2D_Image)
    (hres : (S2D_CreateImage env path).result = .ok (some img)) :
    ∃ s, env.IMG_Load path = some s ∧ img.surface.format = s.format ∧
      (s.format.BytesPerPixel = 4 → img.format = GL_RGBA) ∧
      (s.format.BytesPerPixel = 3 → img.format = GL_RGB) ∧ GL_RGB ≠ GL_RGBA := by
  obtain ⟨s, q, -, -, hload, -, hsurf, -, -, hfmt⟩ := S2D_CreateImage_some env path img hres
  refine ⟨s, hload, by rw [hsurf], ?_, ?_, by decide⟩
  · intro h4
    rw [hfmt, if_pos h4]
  · intro h3
    rw [hfmt, if_neg (by omega)]

/-- C4, at the four-byte surface `bgra2x1`. -/
theorem C4_layout_derivation_witness :
    ∃ img, (S2D_CreateImage (envOf bgra2x1) "bgra.png").result = .ok (some img) ∧
      ∃ s, (envOf bgra2x1).IMG_Load "bgra.png" = some s ∧ img.surface.format = s.format ∧
        (s.format.BytesPerPixel = 4 → img.format = GL_RGBA) ∧
        (s.format.BytesPerPixel = 3 → img.format = GL_RGB) ∧ GL_RGB ≠ GL_RGBA :=
  ⟨_, rfl, C4_layout_derivation (envOf bgra2x1) "bgra.png" _ rfl⟩

/-- C8. Warning threshold: when the decoder returns a surface,
`S2D_CreateImage` emits the low-bit-depth warning exactly when
`BitsPerPixel / channelCount < 8` in integer division; 16 bits per pixel
without alpha warn, 24 bits without alpha and 32 bits with alpha do not. -/
theorem C8_warning_threshold (env : LoadEnv) (path : String) (s : SDL_Surface)
    (hfile : env.S2D_FileExists path = true) (hmem : env.mallocOk = true)
    (hload : env.IMG_Load path = some s) :
    ((∃ b, Diag.lowBitDepth path b ∈ (S2D_CreateImage env path).log) ↔
        s.format.BitsPerPixel / channelCount s.format < 8) ∧
      (s.format.BitsPerPixel = 16 → s.format.Amask = 0 →
        ∃ b, Diag.lowBitDepth path b ∈ (S2D_CreateImage env path).log) ∧
      (s.format.BitsPerPixel = 24 → s.format.Amask = 0 →
        ¬ ∃ b, Diag.lowBitDepth path b ∈ (S2D_CreateImage env path).log) ∧
      (s.format.BitsPerPixel = 32 → s.format.Amask ≠ 0 →
        ¬ ∃ b, Diag.lowBitDepth path b ∈ (S2D_CreateImage env path).log) := by
  have key : (∃ b, Diag.lowBitDepth path b ∈ (S2D_CreateImage env path).log) ↔
      s.format.BitsPerPixel / channelCount s.format < 8 := by
    unfold S2D_CreateImage channelCount
    by_cases ha : s.format.Amask = 0
    · by_cases hb : s.format.BitsPerPixel / 3 < 8
      · cases hq : flipPixels s <;> simp [hfile, hmem, hload, hq, ha, hb]
      · cases hq : flipPixels s <;> simp [hfile, hmem, hload, hq, ha, hb]
    · by_cases hb : s.format.BitsPerPixel / 4 < 8
      · cases hq : flipPixels s <;> simp [hfile, hmem, hload, hq, ha, hb]
      · cases hq : flipPixels s <;> simp [hfile, hmem, hload, hq, ha, hb]
  refine ⟨key, ?_, ?_, ?_⟩
  · intro hb ha
    rw [key, channelCount, hb, ha]
    decide
  · intro hb ha
    rw [key, channelCount, hb, ha]
    decide
  · intro hb ha
    rw [key, channelCount, hb, if_pos ha]
    decide

/-- C8, at the 16-bit surface `rgb565`, where the warning is emitted. -/
theorem C8_warning_threshold_witness :
    (S2D_CreateImage (envOf rgb565) "565.bmp").log = [Diag.lowBitDepth "565.bmp" 5] ∧
    (((∃ b, Diag.lowBitDepth "565.bmp" b ∈ (S2D_CreateImage (envOf rgb565) "565.bmp").log) ↔
        rgb565.format.BitsPerPixel / channelCount rgb565.format < 8) ∧
      (rgb565.format.BitsPerPixel = 16 → rgb565.format.Amask = 0 →
        ∃ b, Diag.lowBitDepth "565.bmp" b ∈ (S2D_CreateImage (envOf rgb565) "565.bmp").log) ∧
      (rgb565.format.BitsPerPixel = 24 → rgb565.format.Amask = 0 →
        ¬ ∃ b, Diag.lowBitDepth "565.bmp" b ∈ (S2D_CreateImage (envOf rgb565) "565.bmp").log) ∧
      (rgb565.format.BitsPerPixel = 32 → rgb565.format.Amask ≠ 0 →
        ¬ ∃ b, Diag.lowBitDepth "565.bmp" b ∈
          (S2D_CreateImage (envOf rgb565) "565.bmp").log)) :=
  ⟨rfl, C8_warning_threshold (envOf rgb565) "565.bmp" rgb565 rfl rfl rfl⟩

/-! ## Drawing -/

theorem S2D_DrawImage_fresh (tex : Nat) (img : S2D_Image) (calls : List Call)
    (h0 : img.texture_id = 0) (hl : img.surface_live = true) :
    S2D_DrawImage tex (some img) calls
      = .ok (some { img with texture_id := tex, surface_live := false },
          calls ++ [Call.createTexture img.format img.orig_width img.orig_height
            img.surface.pixels GL_NEAREST, Call.freeSurface,
            Call.drawImage { img with texture_id := tex, surface_live := false }]) := by
  simp [S2D_DrawImage, h0, hl]

theorem S2D_DrawImage_uploaded (tex : Nat) (img : S2D_Image) (calls : List Call)
    (h : img.texture_id ≠ 0) :
    S2D_DrawImage tex (some img) calls = .ok (some img, calls ++ [Call.drawImage img]) := by
  simp [S2D_DrawImage, h]

theorem countCreate_append (c1 c2 : List Call) :
    countCreate (c1 ++ c2) = countCreate c1 + countCreate c2 := by
  simp [countCreate, List.filter_append]

theorem countFreeSurface_append (c1 c2 : List Call) :
    countFreeSurface (c1 ++ c2) = countFreeSurface c1 + countFreeSurface c2 := by
  simp [countFreeSurface, List.filter_append]

/-- Drawing an uploaded image any number of times leaves the image as it is
and adds neither a `createTexture` nor a `freeSurface` call. -/
theorem drawMany_uploaded (texs : List Nat) :
    ∀ (img : S2D_Image) (calls : List Call), img.texture_id ≠ 0 →
      ∃ calls1, drawMany texs (some img) calls = .ok (some img, calls1) ∧
        countCreate calls1 = countCreate calls ∧
        countFreeSurface calls1 = countFreeSurface calls := by
  induction texs with
  | nil =>
    intro img calls _
    exact ⟨calls, rfl, rfl, rfl⟩
  | cons tex texs ih =>
    intro img calls h
    obtain ⟨calls1, hrun, hc, hf⟩ := ih img (calls ++ [Call.drawImage img]) h
    refine ⟨calls1, ?_, ?_, ?_⟩
    · simp only [drawMany, S2D_DrawImage_uploaded tex img calls h]
      exact hrun
    · rw [hc, countCreate_append]
      rfl
    · rw [hf, countFreeSurface_append]
      rfl

/-- C5. Idempotent upload: for a freshly loaded image whose first texture
creation stores the nonzero handle `tex`, drawing it `N = 1 + texs.length`
times returns; the trace then holds exactly one more `createTexture` and one
more `freeSurface` than before, both already there after the first call, and
`texture_id` after the last call is the one after the first call. -/
theorem C5_idempotent_upload (env : LoadEnv) (path : String) (img : S2D_Image)
    (hres : (S2D_CreateImage env path).result = .ok (some img))
    (calls : List Call) (tex : Nat) (htex : tex ≠ 0) (texs : List Nat) :
    ∃ img1 calls1 imgN callsN,
      S2D_DrawImage tex (some img) calls = .ok (some img1, calls1) ∧
      drawMany (tex :: texs) (some img) calls = .ok (some imgN, callsN) ∧
      countCreate calls1 = countCreate calls + 1 ∧
      countFreeSurface calls1 = countFreeSurface calls + 1 ∧
      countCreate callsN = countCreate calls + 1 ∧
      countFreeSurface callsN = countFreeSurface calls + 1 ∧
      img1.texture_id = tex ∧ imgN.texture_id = img1.texture_id := by
  obtain ⟨s, q, -, -, -, -, -, hlive, h0, -⟩ := S2D_CreateImage_some env path img hres
  have h1 := S2D_DrawImage_fresh tex img calls h0 hlive
  obtain ⟨callsN, hrun, hc, hf⟩ := drawMany_uploaded texs
    { img with texture_id := tex, surface_live := false }
    (calls ++ [Call.createTexture img.format img.orig_width img.orig_height
      img.surface.pixels GL_NEAREST, Call.freeSurface,
      Call.drawImage { img with texture_id := tex, surface_live := false }]) htex
  have hc1 : countCreate (calls ++ [Call.createTexture img.format img.orig_width
      img.orig_height img.surface.pixels GL_NEAREST, Call.freeSurface,
      Call.drawImage { img with texture_id := tex, surface_live := false }])
      = countCreate calls + 1 := by
    rw [countCreate_append]
    rfl
  have hf1 : countFreeSurface (calls ++ [Call.createTexture img.format img.orig_width
      img.orig_height img.surface.pixels GL_NEAREST, Call.freeSurface,
      Call.drawImage { img with texture_id := tex, surface_live := false }])
      = countFreeSurface calls + 1 := by
    rw [countFreeSurface_append]
    rfl
  refine ⟨_, _, _, callsN, h1, ?_, hc1, hf1, ?_, ?_, rfl, rfl⟩
  · simp only [drawMany, h1]
    exact hrun
  · rw [hc, hc1]
  · rw [hf, hf1]

/-- C5, at the surface `bgra2x1` drawn three times; the backend stores the
handle 7 at the first call. -/
theorem C5_idempotent_upload_witness :
    ∃ img, (S2D_CreateImage (envOf bgra2x1) "bgra.png").result = .ok (some img) ∧ (7 : Nat) ≠ 0 ∧
      ∃ img1 calls1 imgN callsN,
        S2D_DrawImage 7 (some img) [] = .ok (some img1, calls1) ∧
        drawMany (7 :: [8, 9]) (some img) [] = .ok (some imgN, callsN) ∧
        countCreate calls1 = countCreate [] + 1 ∧
        countFreeSurface calls1 = countFreeSurface [] + 1 ∧
        countCreate callsN = countCreate [] + 1 ∧
        countFreeSurface callsN = countFreeSurface [] + 1 ∧
        img1.texture_id = 7 ∧ imgN.texture_id = img1.texture_id :=
  ⟨_, rfl, by decide,
    C5_idempotent_upload (envOf bgra2x1) "bgra.png" _ rfl [] 7 (by decide) [8, 9]⟩

/-- C6, evaluated where it fails: the image loaded from `rgba2x1` is drawn
once and the backend leaves `texture_id` at 0; afterwards the surface is
released and `texture_id` is 0, so neither resource is held. -/
theorem C6_neither_held_after_failed_upload :
    ∃ img img1 calls1,
      (S2D_CreateImage (envOf rgba2x1) "rgba.png").result = .ok (some img) ∧
      runOps originPoint [Op.draw 0] (some img, []) = .ok (some img1, calls1) ∧
      img1.surface_live = false ∧ img1.texture_id = 0 :=
  ⟨_, _, _, rfl, rfl, rfl, rfl⟩

/-- C7, evaluated where it fails: the image loaded from `rgba2x1` is drawn
once and the backend leaves `texture_id` at 0; that call has released the
surface all the same, and the next draw reads the released surface. -/
theorem C7_buffer_released_on_failed_upload :
    ∃ img img1 calls1,
      (S2D_CreateImage (envOf rgba2x1) "rgba.png").result = .ok (some img) ∧
      S2D_DrawImage 0 (some img) [] = .ok (some img1, calls1) ∧
      img1.texture_id = 0 ∧ img1.surface_live = false ∧ Call.freeSurface ∈ calls1 ∧
      S2D_DrawImage 7 (some img1) calls1 = .error .useAfterFree :=
  ⟨_, _, _, rfl, rfl, rfl, rfl, by decide, rfl⟩

/-- C9, evaluated where it fails: on the 1x1 three-byte surface
`rgb1x1AlphaMask`, whose buffer has the stated length and whose alpha mask
has bits in `0xFF`, the loop performs the byte-0/byte-3 exchange and reaches
index 3 of a buffer of length 3. -/
theorem C9_alpha_swap_leaves_buffer :
    rgb1x1AlphaMask.pixels.length
        = rgb1x1AlphaMask.w * rgb1x1AlphaMask.h * rgb1x1AlphaMask.format.BytesPerPixel ∧
      rgb1x1AlphaMask.format.BytesPerPixel = 3 ∧
      flipPixel rgb1x1AlphaMask.format.Rmask rgb1x1AlphaMask.format.Gmask
        rgb1x1AlphaMask.format.Amask 0 rgb1x1AlphaMask.pixels = .error (.outOfBounds 3) ∧
      flipPixels rgb1x1AlphaMask = .error (.outOfBounds 3) ∧
      (S2D_CreateImage (envOf rgb1x1AlphaMask) "rgb.png").result = .error (.outOfBounds 3) :=
  ⟨rfl, rfl, rfl, rfl, rfl⟩

/-- C10 as stated fails, twice.  On the four-byte surface `greenHigh1x1` the
green mask has a bit in `0x00FF0000`, yet `S2D_CreateImage` returns the pixel
`[1,2,3,4]` as decoded, where exchanging bytes 1 and 2 gives `[1,3,2,4]`: the
red mask has no bit in `0xFFFF0000` and the loop is not entered.  On the
four-byte surface `hugeSurface bgra2x1.format`, whose buffer has length
`4 * w * h = 2 ^ 31`, the loop is entered, the `int` product of its test
overflows and no image is returned. -/
theorem C10_counterexample :
    (greenHigh1x1.format.BytesPerPixel = 4 ∧
      greenHigh1x1.pixels.length = 4 * greenHigh1x1.w * greenHigh1x1.h ∧
      greenHigh1x1.format.Gmask &&& 0x00FF0000 ≠ 0 ∧
      swap12If (greenHigh1x1.format.Gmask &&& 0x00FF0000 ≠ 0) (1, 2, 3, 4) = (1, 3, 2, 4) ∧
      (S2D_CreateImage (envOf greenHigh1x1) "g.png").result.map
          (Option.map fun img => img.surface.pixels) = .ok (some [1, 2, 3, 4]) ∧
      pixel4At [1, 2, 3, 4] 0 = some (1, 2, 3, 4) ∧
      pixel4At [1, 2, 3, 4] 0
        ≠ some (swap12If (greenHigh1x1.format.Gmask &&& 0x00FF0000 ≠ 0) (1, 2, 3, 4))) ∧
    ((hugeSurface bgra2x1.format).format.BytesPerPixel = 4 ∧
      (hugeSurface bgra2x1.format).pixels.length
        = 4 * (hugeSurface bgra2x1.format).w * (hugeSurface bgra2x1.format).h ∧
      4 * 65536 * 8192 = 2 ^ 31 ∧
      (S2D_CreateImage (envOf (hugeSurface bgra2x1.format)) "huge.png").result
        = .error .intOverflow ∧
      ¬ ∃ img, (S2D_CreateImage (envOf (hugeSurface bgra2x1.format)) "huge.png").result
        = .ok (some img)) := by
  have hres : (S2D_CreateImage (envOf (hugeSurface bgra2x1.format)) "huge.png").result
      = .error .intOverflow :=
    S2D_CreateImage_fault _ _ (hugeSurface bgra2x1.format) _ rfl rfl rfl
      (flipPixels_bound_error _ _ (Or.inr (by decide)) (by decide))
  refine ⟨⟨rfl, rfl, by decide, rfl, rfl, rfl, by decide⟩, rfl, ?_, by norm_num, hres, ?_⟩
  · rw [hugeSurface_length]
    rfl
  · rintro ⟨img, himg⟩
    rw [hres] at himg
    exact absurd himg (by simp)

/-- C10, amended. On a four-byte-per-pixel buffer of length `4 * w * h` and
for all masks for which, when the red mask has a bit in `0xFF000000` or in
`0x00FF0000`, the `int` products `4 * w` and `4 * w * h` are below `2 ^ 31`,
`S2D_CreateImage` returns an image whose buffer has the same length. When the
red mask has such a bit, every pixel gets the three exchanges, each exactly
under its own mask condition: bytes 0 and 3 when the alpha mask has a bit in
`0x000000FF`, then bytes 1 and 2 when the green mask has a bit in
`0x00FF0000`, then bytes 0 and 2 when the red mask has a bit in `0x00FF0000`.
When the red mask has no such bit, every pixel is left as decoded, whatever
the green and alpha masks and the size are. -/
theorem C10_swaps_behind_red_guard (env : LoadEnv) (path : String) (s : SDL_Surface)
    (hfile : env.S2D_FileExists path = true) (hmem : env.mallocOk = true)
    (hload : env.IMG_Load path = some s)
    (h4 : s.format.BytesPerPixel = 4) (hlen : s.pixels.length = 4 * s.w * s.h)
    (hint : s.format.Rmask &&& 0xFF000000 ≠ 0 ∨ s.format.Rmask &&& 0x00FF0000 ≠ 0 →
      4 * s.w < 2 ^ 31 ∧ 4 * s.w * s.h < 2 ^ 31) :
    ∃ img, (S2D_CreateImage env path).result = .ok (some img) ∧
      img.surface.pixels.length = s.pixels.length ∧
      ∀ k, k < s.w * s.h → ∃ px, pixel4At s.pixels k = some px ∧
        pixel4At img.surface.pixels k = some
          (if s.format.Rmask &&& 0xFF000000 ≠ 0 ∨ s.format.Rmask &&& 0x00FF0000 ≠ 0 then
            swap02If (s.format.Rmask &&& 0x00FF0000 ≠ 0)
              (swap12If (s.format.Gmask &&& 0x00FF0000 ≠ 0)
                (swap03If (s.format.Amask &&& 0x000000FF ≠ 0) px))
          else px) := by
  obtain ⟨pxs, hl, hp, hq⟩ := flipPixels_four s h4 (by rw [hlen]; ring) hint
  obtain ⟨img, hres, hsurf, -, -, -⟩ := S2D_CreateImage_ok env path s _ hfile hmem hload hq
  refine ⟨img, hres, ?_, ?_⟩
  · rw [hsurf, hp]
    simp [flat4_length]
  · intro k hk
    have hk1 : k < pxs.length := by rw [hl]; exact hk
    refine ⟨pxs[k], ?_, ?_⟩
    · rw [hp, pixel4At_flat4, List.getElem?_eq_getElem hk1]
    · rw [hsurf]
      simp only
      rw [pixel4At_flat4, List.getElem?_map, List.getElem?_eq_getElem hk1, Option.map_some']
      by_cases hgd : s.format.Rmask &&& 0xFF000000 ≠ 0 ∨ s.format.Rmask &&& 0x00FF0000 ≠ 0
      · rw [if_pos hgd, if_pos hgd]
        rfl
      · rw [if_neg hgd, if_neg hgd]
        rfl

/-- C10 amended, at the surface `abgr2x1`, where the red mask has a bit in
`0xFF000000`, the green mask one in `0x00FF0000` and the alpha mask one in
`0x000000FF`. -/
theorem C10_swaps_behind_red_guard_witness :
    (abgr2x1.format.BytesPerPixel = 4 ∧ abgr2x1.pixels.length = 4 * abgr2x1.w * abgr2x1.h ∧
      (abgr2x1.format.Rmask &&& 0xFF000000 ≠ 0 ∨ abgr2x1.format.Rmask &&& 0x00FF0000 ≠ 0) ∧
      4 * abgr2x1.w < 2 ^ 31 ∧ 4 * abgr2x1.w * abgr2x1.h < 2 ^ 31) ∧
    ∃ img, (S2D_CreateImage (envOf abgr2x1) "abgr.png").result = .ok (some img) ∧
      img.surface.pixels.length = abgr2x1.pixels.length ∧
      ∀ k, k < abgr2x1.w * abgr2x1.h → ∃ px, pixel4At abgr2x1.pixels k = some px ∧
        pixel4At img.surface.pixels k = some
          (if abgr2x1.format.Rmask &&& 0xFF000000 ≠ 0 ∨
              abgr2x1.format.Rmask &&& 0x00FF0000 ≠ 0 then
            swap02If (abgr2x1.format.Rmask &&& 0x00FF0000 ≠ 0)
              (swap12If (abgr2x1.format.Gmask &&& 0x00FF0000 ≠ 0)
                (swap03If (abgr2x1.format.Amask &&& 0x000000FF ≠ 0) px))
          else px) :=
  ⟨⟨rfl, rfl, by decide, by decide, by decide⟩,
    C10_swaps_behind_red_guard (envOf abgr2x1) "abgr.png" abgr2x1 rfl rfl rfl rfl rfl
      (fun _ => ⟨by decide, by decide⟩)⟩

/-! ## Rotation and release -/

/-- C11. Rotation: for every rotation-point function, image, angle and
anchor, `S2D_RotateImage` stores the angle in `rotate` and the point computed
from the image's `x`, `y`, `width`, `height` and the anchor in `(rx, ry)`;
with `x = 0`, `y = 0`, `width = 100`, `height = 100`, angle 45 and the center
anchor the stored pivot is `(50, 50)` and the stored angle is 45. -/
theorem C11_rotation (getRectRotationPoint : Int → Int → Int → Int → Int → S2D_GL_Point)
    (anchorOf : Int → Anchor) (img : S2D_Image) (angle : Rat) (position : Int) :
    ((S2D_RotateImage getRectRotationPoint img angle position).rotate = angle ∧
      (S2D_RotateImage getRectRotationPoint img angle position).rx
        = (getRectRotationPoint img.x img.y img.width img.height position).x ∧
      (S2D_RotateImage getRectRotationPoint img angle position).ry
        = (getRectRotationPoint img.x img.y img.width img.height position).y) ∧
    (anchorOf position = Anchor.center → img.x = 0 → img.y = 0 → img.width = 100 →
      img.height = 100 →
      (S2D_RotateImage (S2D_GetRectRotationPoint anchorOf) img 45 position).rx = 50 ∧
      (S2D_RotateImage (S2D_GetRectRotationPoint anchorOf) img 45 position).ry = 50 ∧
      (S2D_RotateImage (S2D_GetRectRotationPoint anchorOf) img 45 position).rotate = 45) := by
  refine ⟨⟨rfl, rfl, rfl⟩, ?_⟩
  intro hc hx hy hw hh
  simp only [S2D_RotateImage, S2D_GetRectRotationPoint, hc, hx, hy, hw, hh]
  norm_num

/-- C11, at the image `image100` with every position naming the center. -/
theorem C11_rotation_witness :
    (S2D_RotateImage (S2D_GetRectRotationPoint fun _ => Anchor.center) image100 45 1).rx = 50 ∧
    (S2D_RotateImage (S2D_GetRectRotationPoint fun _ => Anchor.center) image100 45 1).ry = 50 ∧
    (S2D_RotateImage (S2D_GetRectRotationPoint fun _ => Anchor.center) image100 45 1).rotate
      = 45 :=
  (C11_rotation originPoint (fun _ => Anchor.center) image100 45 1).2 rfl rfl rfl rfl rfl

/-- C12, evaluated where it fails: the image loaded from `rgba2x1` is freed
without ever having been drawn; the only call made is `freeTexture 0`, no
`freeSurface` is made, and the surface is still allocated afterwards. -/
theorem C12_surface_not_released_by_free :
    ∃ img, (S2D_CreateImage (envOf rgba2x1) "rgba.png").result = .ok (some img) ∧
      img.surface_live = true ∧ img.texture_id = 0 ∧
      S2D_FreeImage (some img) []
        = (some { struct_live := false, surface_live := true }, [Call.freeTexture 0]) ∧
      countFreeSurface (S2D_FreeImage (some img) []).2 = 0 :=
  ⟨_, rfl, rfl, rfl, rfl, rfl⟩

/-- C13. Null guard: with the NULL image `S2D_DrawImage` and `S2D_FreeImage`
return with the trace of calls as it was and with no image. -/
theorem C13_null_guard (tex : Nat) (calls : List Call) :
    S2D_DrawImage tex none calls = .ok (none, calls) ∧
    S2D_FreeImage none calls = (none, calls) :=
  ⟨rfl, rfl⟩

/-! ## Loading -/

/-- The image `S2D_CreateImage` builds from the decoded surface `s` and the
normalized pixels `q`, field by field. -/
theorem S2D_CreateImage_fields (env : LoadEnv) (path : String) (img : S2D_Image)
    (hres : (S2D_CreateImage env path).result = .ok (some img)) :
    ∃ s q, env.IMG_Load path = some s ∧ flipPixels s = .ok q ∧
      img =
        { path := path
          surface := { s with pixels := q }
          surface_live := true
          format := if s.format.BytesPerPixel = 4 then GL_RGBA else GL_RGB
          texture_id := 0
          color := { r := 1, g := 1, b := 1, a := 1 }
          x := 0
          y := 0
          width := s.w
          height := s.h
          orig_width := s.w
          orig_height := s.h
          rotate := 0
          rx := 0
          ry := 0 } := by
  unfold S2D_CreateImage at hres
  by_cases hfile : env.S2D_FileExists path = true
  · by_cases hmem : env.mallocOk = true
    · cases hload : env.IMG_Load path with
      | none => simp [hfile, hmem, hload] at hres
      | some s =>
        cases hq : flipPixels s with
        | error e => simp [hfile, hmem, hload, hq] at hres
        | ok q =>
          simp only [hfile, hmem, hload, hq, Bool.not_true, Bool.false_eq_true, if_false,
            Except.ok.injEq, Option.some.injEq] at hres
          exact ⟨s, q, rfl, hq, hres.symm⟩
    · simp [hfile, hmem] at hres
  · simp [hfile] at hres

/-- With a red mask that has no bit in `0xFFFF0000` the loop is not entered
and the buffer is returned as decoded. -/
theorem flipPixels_guard_off (s : SDL_Surface) (hr : s.format.Rmask &&& 0xFFFF0000 = 0) :
    flipPixels s = .ok s.pixels := by
  have e1 : (0xFFFF0000 : Nat) &&& 0xFF000000 = 0xFF000000 := by decide
  have e2 : (0xFFFF0000 : Nat) &&& 0xFF0000 = 0xFF0000 := by decide
  have h1 : s.format.Rmask &&& 0xFF000000 = 0 := by
    rw [← e1, ← Nat.and_assoc, hr]
    simp
  have h2 : s.format.Rmask &&& 0xFF0000 = 0 := by
    rw [← e2, ← Nat.and_assoc, hr]
    simp
  simp [flipPixels, h1, h2]

/-- C14 as stated fails, twice: the file exists, the structure is allocated
and the decoder returns a surface, yet no image is returned.  On
`rgb1x1AlphaMask`, with 3 bytes per pixel and an alpha mask with bits in
`0xFF`, the loop leaves the 3-byte buffer at index 3.  On
`hugeSurface bgra2x1.format`, with a buffer of `2 ^ 31` bytes, the `int`
product of the loop test overflows. -/
theorem C14_counterexample :
    ((envOf rgb1x1AlphaMask).S2D_FileExists "rgb.png" = true ∧
      (envOf rgb1x1AlphaMask).mallocOk = true ∧
      (envOf rgb1x1AlphaMask).IMG_Load "rgb.png" = some rgb1x1AlphaMask ∧
      (S2D_CreateImage (envOf rgb1x1AlphaMask) "rgb.png").result = .error (.outOfBounds 3) ∧
      ¬ ∃ img, (S2D_CreateImage (envOf rgb1x1AlphaMask) "rgb.png").result = .ok (some img)) ∧
    ((envOf (hugeSurface bgra2x1.format)).S2D_FileExists "huge.png" = true ∧
      (envOf (hugeSurface bgra2x1.format)).mallocOk = true ∧
      (envOf (hugeSurface bgra2x1.format)).IMG_Load "huge.png"
        = some (hugeSurface bgra2x1.format) ∧
      (hugeSurface bgra2x1.format).pixels.length
        = (hugeSurface bgra2x1.format).w * (hugeSurface bgra2x1.format).h
          * (hugeSurface bgra2x1.format).format.BytesPerPixel ∧
      (S2D_CreateImage (envOf (hugeSurface bgra2x1.format)) "huge.png").result
        = .error .intOverflow ∧
      ¬ ∃ img, (S2D_CreateImage (envOf (hugeSurface bgra2x1.format)) "huge.png").result
        = .ok (some img)) := by
  have hres1 : (S2D_CreateImage (envOf rgb1x1AlphaMask) "rgb.png").result
      = .error (.outOfBounds 3) := rfl
  have hres2 : (S2D_CreateImage (envOf (hugeSurface bgra2x1.format)) "huge.png").result
      = .error .intOverflow :=
    S2D_CreateImage_fault _ _ (hugeSurface bgra2x1.format) _ rfl rfl rfl
      (flipPixels_bound_error _ _ (Or.inr (by decide)) (by decide))
  refine ⟨⟨rfl, rfl, rfl, hres1, ?_⟩, rfl, rfl, rfl, ?_, hres2, ?_⟩
  · rintro ⟨img, himg⟩
    rw [hres1] at himg
    exact absurd himg (by simp)
  · rw [hugeSurface_length]
    rfl
  · rintro ⟨img, himg⟩
    rw [hres2] at himg
    exact absurd himg (by simp)

/-- C14, amended. Load errors give an absent result: `S2D_CreateImage`
returns NULL when the file does not exist, when the structure cannot be
allocated and when the decoder fails.  In every other case it returns an
image, whether or not the low-bit-depth warning is emitted, when the red mask
has no bit in `0xFFFF0000`, and also when the buffer has length
`w * h * BytesPerPixel`, the `int` products `BytesPerPixel * w` and
`BytesPerPixel * w * h` are below `2 ^ 31`, and `BytesPerPixel` is 4, or is 3
with an alpha mask without bits in `0x000000FF`. -/
theorem C14_load_errors (env : LoadEnv) (path : String) :
    (env.S2D_FileExists path = false → (S2D_CreateImage env path).result = .ok none) ∧
    (env.mallocOk = false → (S2D_CreateImage env path).result = .ok none) ∧
    (env.IMG_Load path = none → (S2D_CreateImage env path).result = .ok none) ∧
    (∀ s, env.S2D_FileExists path = true → env.mallocOk = true →
      env.IMG_Load path = some s →
      (s.format.Rmask &&& 0xFFFF0000 = 0 ∨
        (s.pixels.length = s.w * s.h * s.format.BytesPerPixel ∧
          s.format.BytesPerPixel * s.w < 2 ^ 31 ∧
          s.format.BytesPerPixel * s.w * s.h < 2 ^ 31 ∧
          (s.format.BytesPerPixel = 4 ∨
            (s.format.BytesPerPixel = 3 ∧ s.format.Amask &&& 0x000000FF = 0)))) →
      ∃ img, (S2D_CreateImage env path).result = .ok (some img)) := by
  refine ⟨?_, ?_, ?_, ?_⟩
  · intro h
    simp [S2D_CreateImage, h]
  · intro h
    unfold S2D_CreateImage
    by_cases hfile : env.S2D_FileExists path = true <;> simp [hfile, h]
  · intro h
    unfold S2D_CreateImage
    by_cases hfile : env.S2D_FileExists path = true <;>
      by_cases hmem : env.mallocOk = true <;> simp [hfile, hmem, h]
  · intro s hfile hmem hload hs
    have hq : ∃ q, flipPixels s = .ok q := by
      rcases hs with hr | ⟨hlen, hbw, hbwh, h4 | ⟨h3, ha⟩⟩
      · exact ⟨_, flipPixels_guard_off s hr⟩
      · rw [h4] at hbw hbwh
        obtain ⟨pxs, -, -, hq⟩ := flipPixels_four s h4 (by rw [hlen, h4]; ring)
          (fun _ => ⟨hbw, hbwh⟩)
        exact ⟨_, hq⟩
      · rw [h3] at hbw hbwh
        obtain ⟨pxs, -, -, hq⟩ := flipPixels_three s h3 ha (by rw [hlen, h3]; ring)
          (fun _ => ⟨hbw, hbwh⟩)
        exact ⟨_, hq⟩
    obtain ⟨q, hq⟩ := hq
    obtain ⟨img, hres, -⟩ := S2D_CreateImage_ok env path s q hfile hmem hload hq
    exact ⟨img, hres⟩

/-- C14 amended, at the surface `lowDepthBgr1x1`: the warning is emitted, the
loop is entered and an image is returned. -/
theorem C14_load_errors_witness :
    (S2D_CreateImage (envOf lowDepthBgr1x1) "low.png").log = [Diag.lowBitDepth "low.png" 5] ∧
    (lowDepthBgr1x1.format.Rmask &&& 0x00FF0000 ≠ 0 ∧
      lowDepthBgr1x1.pixels.length
        = lowDepthBgr1x1.w * lowDepthBgr1x1.h * lowDepthBgr1x1.format.BytesPerPixel ∧
      lowDepthBgr1x1.format.BytesPerPixel * lowDepthBgr1x1.w < 2 ^ 31 ∧
      lowDepthBgr1x1.format.BytesPerPixel * lowDepthBgr1x1.w * lowDepthBgr1x1.h < 2 ^ 31 ∧
      lowDepthBgr1x1.format.BytesPerPixel = 4) ∧
    ∃ img, (S2D_CreateImage (envOf lowDepthBgr1x1) "low.png").result = .ok (some img) :=
  ⟨rfl, ⟨by decide, rfl, by decide, by decide, rfl⟩,
    (C14_load_errors (envOf lowDepthBgr1x1) "low.png").2.2.2 lowDepthBgr1x1 rfl rfl rfl
      (Or.inr ⟨rfl, by decide, by decide, Or.inl rfl⟩)⟩

/-- C15. Defaults after load: an image returned by `S2D_CreateImage` comes
from a decoded surface and has position `(0, 0)`, tint `(1, 1, 1, 1)`,
rotation angle 0, rotation pivot `(0, 0)`, `texture_id` 0, the original
width and height of that surface, and a display width and height equal to
the original ones. -/
theorem C15_defaults_after_load (env : LoadEnv) (path : String) (img : S2D_Image)
    (hres : (S2D_CreateImage env path).result = .ok (some img)) :
    ∃ s, env.IMG_Load path = some s ∧
      img.x = 0 ∧ img.y = 0 ∧
      img.color = { r := 1, g := 1, b := 1, a := 1 } ∧
      img.rotate = 0 ∧ img.rx = 0 ∧ img.ry = 0 ∧ img.texture_id = 0 ∧
      img.orig_width = s.w ∧ img.orig_height = s.h ∧
      img.width = img.orig_width ∧ img.height = img.orig_height := by
  obtain ⟨s, q, hload, -, himg⟩ := S2D_CreateImage_fields env path img hres
  subst himg
  exact ⟨s, hload, rfl, rfl, rfl, rfl, rfl, rfl, rfl, rfl, rfl, rfl, rfl⟩

/-- C15, at the surface `bgra2x1`. -/
theorem C15_defaults_after_load_witness :
    ∃ img, (S2D_CreateImage (envOf bgra2x1) "bgra.png").result = .ok (some img) ∧
      ∃ s, (envOf bgra2x1).IMG_Load "bgra.png" = some s ∧
        img.x = 0 ∧ img.y = 0 ∧
        img.color = { r := 1, g := 1, b := 1, a := 1 } ∧
        img.rotate = 0 ∧ img.rx = 0 ∧ img.ry = 0 ∧ img.texture_id = 0 ∧
        img.orig_width = s.w ∧ img.orig_height = s.h ∧
        img.width = img.orig_width ∧ img.height = img.orig_height :=
  ⟨_, rfl, C15_defaults_after_load (envOf bgra2x1) "bgra.png" _ rfl⟩

/-! ## What the calls keep -/

/-- One call keeps the image non-null and keeps its format and original
size. -/
theorem stepOp_keeps (getRectRotationPoint : Int → Int → Int → Int → Int → S2D_GL_Point)
    (op : Op) (im : S2D_Image) (calls : List Call) (st : Option S2D_Image × List Call)
    (hstep : stepOp getRectRotationPoint op (some im, calls) = .ok st) :
    ∃ im1, st.1 = some im1 ∧ im1.format = im.format ∧ im1.orig_width = im.orig_width ∧
      im1.orig_height = im.orig_height := by
  cases op with
  | draw tex =>
    simp only [stepOp, S2D_DrawImage] at hstep
    by_cases h0 : im.texture_id = 0
    · by_cases hl : im.surface_live = true
      · simp only [h0, hl, if_true, Except.ok.injEq] at hstep
        subst hstep
        exact ⟨_, rfl, rfl, rfl, rfl⟩
      · simp [h0, hl] at hstep
    · simp only [h0, if_false, Except.ok.injEq] at hstep
      subst hstep
      exact ⟨_, rfl, rfl, rfl, rfl⟩
  | rotate angle position =>
    simp only [stepOp, Except.ok.injEq] at hstep
    subst hstep
    exact ⟨_, rfl, rfl, rfl, rfl⟩

/-- C16. Load-time fields are immutable: `S2D_RotateImage` keeps `format`,
`orig_width` and `orig_height`, so does every `S2D_DrawImage` that returns,
and in every state reached from a loaded image by a sequence of these calls
the image is still there with the `format`, `orig_width` and `orig_height`
that `S2D_CreateImage` set. -/
theorem C16_load_time_fields (getRectRotationPoint : Int → Int → Int → Int → Int → S2D_GL_Point)
    (env : LoadEnv) (path : String) (img : S2D_Image)
    (hres : (S2D_CreateImage env path).result = .ok (some img))
    (ops : List Op) (calls : List Call) (st : Option S2D_Image × List Call)
    (hrun : runOps getRectRotationPoint ops (some img, calls) = .ok st) :
    ∃ s img1, env.IMG_Load path = some s ∧ st.1 = some img1 ∧
      (img1.format = img.format ∧ img1.orig_width = img.orig_width ∧
        img1.orig_height = img.orig_height) ∧
      (img1.format = (if s.format.BytesPerPixel = 4 then GL_RGBA else GL_RGB) ∧
        img1.orig_width = s.w ∧ img1.orig_height = s.h) := by
  have key : ∀ (ops : List Op) (im : S2D_Image) (calls : List Call)
      (st : Option S2D_Image × List Call),
      runOps getRectRotationPoint ops (some im, calls) = .ok st →
      ∃ im1, st.1 = some im1 ∧ im1.format = im.format ∧ im1.orig_width = im.orig_width ∧
        im1.orig_height = im.orig_height := by
    intro ops
    induction ops with
    | nil =>
      intro im calls st h
      simp only [runOps, Except.ok.injEq] at h
      subst h
      exact ⟨im, rfl, rfl, rfl, rfl⟩
    | cons op ops ih =>
      intro im calls st h
      simp only [runOps] at h
      cases hstep : stepOp getRectRotationPoint op (some im, calls) with
      | error e => simp [hstep] at h
      | ok st1 =>
        obtain ⟨im1, h1, hf, hw, hh⟩ := stepOp_keeps getRectRotationPoint op im calls st1 hstep
        obtain ⟨o1, c1⟩ := st1
        simp only at h1
        subst h1
        simp only [hstep] at h
        obtain ⟨im2, h2, hf2, hw2, hh2⟩ := ih im1 c1 st h
        exact ⟨im2, h2, by rw [hf2, hf], by rw [hw2, hw], by rw [hh2, hh]⟩
  obtain ⟨s, q, hload, -, himg⟩ := S2D_CreateImage_fields env path img hres
  obtain ⟨img1, h1, hf, hw, hh⟩ := key ops img calls st hrun
  refine ⟨s, img1, hload, h1, ⟨hf, hw, hh⟩, ?_, ?_, ?_⟩
  · rw [hf, himg]
  · rw [hw, himg]
  · rw [hh, himg]

/-- C16, at the image loaded from `bgra2x1`, drawn, rotated and drawn
again. -/
theorem C16_load_time_fields_witness :
    ∃ img st, (S2D_CreateImage (envOf bgra2x1) "bgra.png").result = .ok (some img) ∧
      runOps originPoint [Op.draw 7, Op.rotate 45 1, Op.draw 0] (some img, []) = .ok st ∧
      ∃ s img1, (envOf bgra2x1).IMG_Load "bgra.png" = some s ∧ st.1 = some img1 ∧
        (img1.format = img.format ∧ img1.orig_width = img.orig_width ∧
          img1.orig_height = img.orig_height) ∧
        (img1.format = (if s.format.BytesPerPixel = 4 then GL_RGBA else GL_RGB) ∧
          img1.orig_width = s.w ∧ img1.orig_height = s.h) :=
  ⟨_, _, rfl, rfl,
    C16_load_time_fields originPoint (envOf bgra2x1) "bgra.png" _ rfl
      [Op.draw 7, Op.rotate 45 1, Op.draw 0] [] _ rfl⟩

/-- C17. Upload arguments: the first `S2D_DrawImage` of a loaded image whose
display width and height the caller has set to any `w1` and `h1` returns, and
its first call is `createTexture` with the image's format, the original width
and height of the decoded surface, the normalized pixel buffer and
`GL_NEAREST`. -/
theorem C17_upload_arguments (env : LoadEnv) (path : String) (img : S2D_Image)
    (hres : (S2D_CreateImage env path).result = .ok (some img))
    (w1 h1 : Int) (tex : Nat) (calls : List Call) :
    ∃ s q img1, env.IMG_Load path = some s ∧ flipPixels s = .ok q ∧
      img.format = (if s.format.BytesPerPixel = 4 then GL_RGBA else GL_RGB) ∧
      S2D_DrawImage tex (some { img with width := w1, height := h1 }) calls
        = .ok (some img1,
            calls ++ [Call.createTexture img.format s.w s.h q GL_NEAREST,
              Call.freeSurface, Call.drawImage img1]) := by
  obtain ⟨s, q, hload, hq, himg⟩ := S2D_CreateImage_fields env path img hres
  subst himg
  exact ⟨s, q, _, hload, hq, rfl, rfl⟩

/-- C17, at the image loaded from `bgra2x1` with the display size set to
640 x 480: the texture is created from the 2 x 1 normalized buffer. -/
theorem C17_upload_arguments_witness :
    ∃ img, (S2D_CreateImage (envOf bgra2x1) "bgra.png").result = .ok (some img) ∧
      (∃ img1, S2D_DrawImage 7 (some { img with width := 640, height := 480 }) []
        = .ok (some img1,
            [Call.createTexture GL_RGBA 2 1 [30, 20, 10, 40, 70, 60, 50, 80] GL_NEAREST,
              Call.freeSurface, Call.drawImage img1])) ∧
      ∃ s q img1, (envOf bgra2x1).IMG_Load "bgra.png" = some s ∧ flipPixels s = .ok q ∧
        img.format = (if s.format.BytesPerPixel = 4 then GL_RGBA else GL_RGB) ∧
        S2D_DrawImage 7 (some { img with width := 640, height := 480 }) []
          = .ok (some img1,
              [] ++ [Call.createTexture img.format s.w s.h q GL_NEAREST,
                Call.freeSurface, Call.drawImage img1]) :=
  ⟨_, rfl, ⟨_, rfl⟩, C17_upload_arguments (envOf bgra2x1) "bgra.png" _ rfl 640 480 7 []⟩

/-- C18. Rotation frame: `S2D_RotateImage` changes no field other than
`rotate`, `rx` and `ry`; the stored pivot is a snapshot: writing new values
to `x`, `y`, `width` and `height` afterwards leaves `rx` and `ry` as stored,
and the next `S2D_RotateImage` computes the pivot from the new values. -/
theorem C18_rotation_frame (getRectRotationPoint : Int → Int → Int → Int → Int → S2D_GL_Point)
    (img : S2D_Image) (angle angle1 : Rat) (position position1 : Int) (x1 y1 w1 h1 : Int) :
    ((S2D_RotateImage getRectRotationPoint img angle position).path = img.path ∧
      (S2D_RotateImage getRectRotationPoint img angle position).surface = img.surface ∧
      (S2D_RotateImage getRectRotationPoint img angle position).surface_live
        = img.surface_live ∧
      (S2D_RotateImage getRectRotationPoint img angle position).format = img.format ∧
      (S2D_RotateImage getRectRotationPoint img angle position).texture_id = img.texture_id ∧
      (S2D_RotateImage getRectRotationPoint img angle position).color = img.color ∧
      (S2D_RotateImage getRectRotationPoint img angle position).x = img.x ∧
      (S2D_RotateImage getRectRotationPoint img angle position).y = img.y ∧
      (S2D_RotateImage getRectRotationPoint img angle position).width = img.width ∧
      (S2D_RotateImage getRectRotationPoint img angle position).height = img.height ∧
      (S2D_RotateImage getRectRotationPoint img angle position).orig_width = img.orig_width ∧
      (S2D_RotateImage getRectRotationPoint img angle position).orig_height
        = img.orig_height) ∧
    (({ S2D_RotateImage getRectRotationPoint img angle position with
          x := x1, y := y1, width := w1, height := h1 } : S2D_Image).rx
        = (getRectRotationPoint img.x img.y img.width img.height position).x ∧
      ({ S2D_RotateImage getRectRotationPoint img angle position with
          x := x1, y := y1, width := w1, height := h1 } : S2D_Image).ry
        = (getRectRotationPoint img.x img.y img.width img.height position).y) ∧
    ((S2D_RotateImage getRectRotationPoint
        { S2D_RotateImage getRectRotationPoint img angle position with
          x := x1, y := y1, width := w1, height := h1 } angle1 position1).rx
        = (getRectRotationPoint x1 y1 w1 h1 position1).x ∧
      (S2D_RotateImage getRectRotationPoint
        { S2D_RotateImage getRectRotationPoint img angle position with
          x := x1, y := y1, width := w1, height := h1 } angle1 position1).ry
        = (getRectRotationPoint x1 y1 w1 h1 position1).y) :=
  ⟨⟨rfl, rfl, rfl, rfl, rfl, rfl, rfl, rfl, rfl, rfl, rfl, rfl⟩, ⟨rfl, rfl⟩, ⟨rfl, rfl⟩⟩

/-! ## The normalization as a permutation -/

theorem byteOf_swap03If (c : Prop) [Decidable c] (px : Nat × Nat × Nat × Nat) (j : Fin 4) :
    byteOf (swap03If c px) j = byteOf px ((if c then Equiv.swap 0 3 else 1 : Equiv.Perm (Fin 4)) j) := by
  obtain ⟨b0, b1, b2, b3⟩ := px
  by_cases hc : c
  · rw [swap03If_pos hc, if_pos hc]
    fin_cases j <;> rfl
  · rw [swap03If_neg hc, if_neg hc]
    rfl

theorem byteOf_swap12If (c : Prop) [Decidable c] (px : Nat × Nat × Nat × Nat) (j : Fin 4) :
    byteOf (swap12If c px) j = byteOf px ((if c then Equiv.swap 1 2 else 1 : Equiv.Perm (Fin 4)) j) := by
  obtain ⟨b0, b1, b2, b3⟩ := px
  by_cases hc : c
  · rw [swap12If_pos hc, if_pos hc]
    fin_cases j <;> rfl
  · rw [swap12If_neg hc, if_neg hc]
    rfl

theorem byteOf_swap02If (c : Prop) [Decidable c] (px : Nat × Nat × Nat × Nat) (j : Fin 4) :
    byteOf (swap02If c px) j = byteOf px ((if c then Equiv.swap 0 2 else 1 : Equiv.Perm (Fin 4)) j) := by
  obtain ⟨b0, b1, b2, b3⟩ := px
  by_cases hc : c
  · rw [swap02If_pos hc, if_pos hc]
    fin_cases j <;> rfl
  · rw [swap02If_neg hc, if_neg hc]
    rfl

/-- What the loop does to one pixel is the permutation `permOfMasks` of its
bytes. -/
theorem byteOf_normalized (r g a : Nat) (px : Nat × Nat × Nat × Nat) (j : Fin 4) :
    byteOf ((if r &&& 0xFF000000 ≠ 0 ∨ r &&& 0xFF0000 ≠ 0 then specPixel4 r g a else id) px) j
      = byteOf px (permOfMasks r g a j) := by
  unfold permOfMasks
  by_cases hgd : r &&& 0xFF000000 ≠ 0 ∨ r &&& 0xFF0000 ≠ 0
  · rw [if_pos hgd, if_pos hgd]
    unfold specPixel4
    rw [byteOf_swap02If, byteOf_swap12If, byteOf_swap03If]
    rfl
  · rw [if_neg hgd, if_neg hgd]
    rfl

theorem getElem?_byteOf (p : List Nat) (k : Nat) (px : Nat × Nat × Nat × Nat)
    (h : pixel4At p k = some px) (j : Fin 4) : p[4 * k + (j : Nat)]? = some (byteOf px j) := by
  obtain ⟨b0, b1, b2, b3⟩ := px
  rw [pixel4At_eq_some] at h
  obtain ⟨h0, h1, h2, h3⟩ := h
  fin_cases j
  · exact h0
  · exact h1
  · exact h2
  · exact h3

/-- C19 as stated fails: the surface `hugeSurface bgra2x1.format` has 4 bytes
per pixel and a buffer of length `4 * w * h`, but that length is `2 ^ 31`: the
loop is entered, the `int` product of its test overflows and
`S2D_CreateImage` returns no image, so no permutation of the input pixels is
produced. -/
theorem C19_counterexample :
    (hugeSurface bgra2x1.format).format.BytesPerPixel = 4 ∧
      (hugeSurface bgra2x1.format).pixels.length
        = 4 * (hugeSurface bgra2x1.format).w * (hugeSurface bgra2x1.format).h ∧
      ((hugeSurface bgra2x1.format).format.Rmask &&& 0xFF000000 ≠ 0 ∨
        (hugeSurface bgra2x1.format).format.Rmask &&& 0x00FF0000 ≠ 0) ∧
      4 * 65536 * 8192 = 2 ^ 31 ∧
      (S2D_CreateImage (envOf (hugeSurface bgra2x1.format)) "huge.png").result = .error .intOverflow ∧
      ¬ ∃ img, (S2D_CreateImage (envOf (hugeSurface bgra2x1.format)) "huge.png").result = .ok (some img) := by
  have hres : (S2D_CreateImage (envOf (hugeSurface bgra2x1.format)) "huge.png").result = .error .intOverflow :=
    S2D_CreateImage_fault _ _ (hugeSurface bgra2x1.format) _ rfl rfl rfl
      (flipPixels_bound_error _ _ (Or.inr (by decide)) (by decide))
  refine ⟨rfl, ?_, Or.inr (by decide), by norm_num, hres, ?_⟩
  · rw [hugeSurface_length]
    rfl
  · rintro ⟨img, himg⟩
    rw [hres] at himg
    exact absurd himg (by simp)

/-- C19, amended. Normalization is a per-pixel permutation: on a
four-byte-per-pixel buffer of length `4 * w * h` and for all masks for which,
when the red mask has a bit in `0xFF000000` or in `0x00FF0000`, the `int`
products `4 * w` and `4 * w * h` are below `2 ^ 31`, `S2D_CreateImage` returns
an image whose buffer has the same length, and byte `j` of every output pixel
is byte `permOfMasks Rmask Gmask Amask j` of the input pixel at the same
index; `permOfMasks` is a permutation of the four positions that looks at the
masks only. -/
theorem C19_per_pixel_permutation (env : LoadEnv) (path : String) (s : SDL_Surface)
    (hfile : env.S2D_FileExists path = true) (hmem : env.mallocOk = true)
    (hload : env.IMG_Load path = some s)
    (h4 : s.format.BytesPerPixel = 4) (hlen : s.pixels.length = 4 * s.w * s.h)
    (hint : s.format.Rmask &&& 0xFF000000 ≠ 0 ∨ s.format.Rmask &&& 0x00FF0000 ≠ 0 →
      4 * s.w < 2 ^ 31 ∧ 4 * s.w * s.h < 2 ^ 31) :
    ∃ img, (S2D_CreateImage env path).result = .ok (some img) ∧
      img.surface.pixels.length = s.pixels.length ∧
      ∀ (k : Nat) (j : Fin 4), k < s.w * s.h →
        ∃ b, img.surface.pixels[4 * k + (j : Nat)]? = some b ∧
          s.pixels[4 * k + ((permOfMasks s.format.Rmask s.format.Gmask s.format.Amask j : Fin 4)
            : Nat)]? = some b := by
  obtain ⟨pxs, hl, hp, hq⟩ := flipPixels_four s h4 (by rw [hlen]; ring) hint
  obtain ⟨img, hres, hsurf, -, -, -⟩ := S2D_CreateImage_ok env path s _ hfile hmem hload hq
  refine ⟨img, hres, ?_, ?_⟩
  · rw [hsurf, hp]
    simp [flat4_length]
  · intro k j hk
    have hk1 : k < pxs.length := by rw [hl]; exact hk
    have hin : pixel4At s.pixels k = some pxs[k] := by
      rw [hp, pixel4At_flat4, List.getElem?_eq_getElem hk1]
    have hout : pixel4At img.surface.pixels k
        = some ((if s.format.Rmask &&& 0xFF000000 ≠ 0 ∨ s.format.Rmask &&& 0xFF0000 ≠ 0 then
            specPixel4 s.format.Rmask s.format.Gmask s.format.Amask else id) pxs[k]) := by
      rw [hsurf]
      simp only
      rw [pixel4At_flat4, List.getElem?_map, List.getElem?_eq_getElem hk1, Option.map_some']
    refine ⟨_, getElem?_byteOf _ k _ hout j, ?_⟩
    rw [byteOf_normalized]
    exact getElem?_byteOf _ k _ hin _

/-- C19 amended, at the surface `abgr2x1`, whose masks stand for the reversal
of the four bytes. -/
theorem C19_per_pixel_permutation_witness :
    (permOfMasks abgr2x1.format.Rmask abgr2x1.format.Gmask abgr2x1.format.Amask 0 = 3 ∧
      permOfMasks abgr2x1.format.Rmask abgr2x1.format.Gmask abgr2x1.format.Amask 1 = 2 ∧
      permOfMasks abgr2x1.format.Rmask abgr2x1.format.Gmask abgr2x1.format.Amask 2 = 1 ∧
      permOfMasks abgr2x1.format.Rmask abgr2x1.format.Gmask abgr2x1.format.Amask 3 = 0) ∧
    ((abgr2x1.format.Rmask &&& 0xFF000000 ≠ 0 ∨ abgr2x1.format.Rmask &&& 0x00FF0000 ≠ 0) ∧
      4 * abgr2x1.w < 2 ^ 31 ∧ 4 * abgr2x1.w * abgr2x1.h < 2 ^ 31) ∧
    ∃ img, (S2D_CreateImage (envOf abgr2x1) "abgr.png").result = .ok (some img) ∧
      img.surface.pixels.length = abgr2x1.pixels.length ∧
      ∀ (k : Nat) (j : Fin 4), k < abgr2x1.w * abgr2x1.h →
        ∃ b, img.surface.pixels[4 * k + (j : Nat)]? = some b ∧
          abgr2x1.pixels[4 * k + ((permOfMasks abgr2x1.format.Rmask abgr2x1.format.Gmask
            abgr2x1.format.Amask j : Fin 4) : Nat)]? = some b :=
  ⟨⟨by decide, by decide, by decide, by decide⟩, ⟨by decide, by decide, by decide⟩,
    C19_per_pixel_permutation (envOf abgr2x1) "abgr.png" abgr2x1 rfl rfl rfl rfl rfl
      (fun _ => ⟨by decide, by decide⟩)⟩

/-- C20 as stated fails: the surface `hugeSurface allSwaps1x1.format` has 4
bytes per pixel, a buffer of length `4 * w * h`, red and green masks with a
bit in `0x00FF0000` and an alpha mask with a bit in `0x000000FF`, but its
byte count `4 * 65536 * 8192` is `2 ^ 31`: the `int` product of the loop test
overflows and `S2D_CreateImage` returns no image with rotated pixels. -/
theorem C20_counterexample :
    (hugeSurface allSwaps1x1.format).format.BytesPerPixel = 4 ∧
      (hugeSurface allSwaps1x1.format).pixels.length
        = 4 * (hugeSurface allSwaps1x1.format).w * (hugeSurface allSwaps1x1.format).h ∧
      (hugeSurface allSwaps1x1.format).format.Rmask &&& 0x00FF0000 ≠ 0 ∧
      (hugeSurface allSwaps1x1.format).format.Gmask &&& 0x00FF0000 ≠ 0 ∧
      (hugeSurface allSwaps1x1.format).format.Amask &&& 0x000000FF ≠ 0 ∧
      4 * 65536 * 8192 = 2 ^ 31 ∧
      (S2D_CreateImage (envOf (hugeSurface allSwaps1x1.format)) "huge.png").result = .error .intOverflow ∧
      ¬ ∃ img, (S2D_CreateImage (envOf (hugeSurface allSwaps1x1.format)) "huge.png").result = .ok (some img) := by
  have hres : (S2D_CreateImage (envOf (hugeSurface allSwaps1x1.format)) "huge.png").result = .error .intOverflow :=
    S2D_CreateImage_fault _ _ (hugeSurface allSwaps1x1.format) _ rfl rfl rfl
      (flipPixels_bound_error _ _ (Or.inr (by decide)) (by decide))
  refine ⟨rfl, ?_, by decide, by decide, by decide, by norm_num, hres, ?_⟩
  · rw [hugeSurface_length]
    rfl
  · rintro ⟨img, himg⟩
    rw [hres] at himg
    exact absurd himg (by simp)

/-- C20, amended. Swap order: one loop iteration performs the exchanges in
the order alpha `(0,3)`, green `(1,2)`, red `(0,2)`; so on a
four-byte-per-pixel buffer of length `4 * w * h` whose `int` products `4 * w`
and `4 * w * h` are below `2 ^ 31`, whose red and green masks both have a bit
in `0x00FF0000` and whose alpha mask has a bit in `0x000000FF`, every pixel
`[b0,b1,b2,b3]` becomes `[b1,b2,b3,b0]`. -/
theorem C20_swap_order (env : LoadEnv) (path : String) (s : SDL_Surface)
    (hfile : env.S2D_FileExists path = true) (hmem : env.mallocOk = true)
    (hload : env.IMG_Load path = some s)
    (h4 : s.format.BytesPerPixel = 4) (hbw : 4 * s.w < 2 ^ 31)
    (hbwh : 4 * s.w * s.h < 2 ^ 31) (hlen : s.pixels.length = 4 * s.w * s.h)
    (hr : s.format.Rmask &&& 0x00FF0000 ≠ 0) (hg : s.format.Gmask &&& 0x00FF0000 ≠ 0)
    (ha : s.format.Amask &&& 0x000000FF ≠ 0) :
    (∀ (i : Nat) (p : List Nat),
      flipPixel s.format.Rmask s.format.Gmask s.format.Amask i p
        = (swapBytes p i (i + 3)).bind fun p1 =>
            (swapBytes p1 (i + 1) (i + 2)).bind fun p2 => swapBytes p2 i (i + 2)) ∧
    ∃ img, (S2D_CreateImage env path).result = .ok (some img) ∧
      img.surface.pixels.length = s.pixels.length ∧
      ∀ k, k < s.w * s.h → ∃ b0 b1 b2 b3,
        pixel4At s.pixels k = some (b0, b1, b2, b3) ∧
        pixel4At img.surface.pixels k = some (b1, b2, b3, b0) := by
  constructor
  · intro i p
    simp only [flipPixel, if_pos hr, if_pos hg, if_pos ha, bind]
  · have hgd : s.format.Rmask &&& 0xFF000000 ≠ 0 ∨ s.format.Rmask &&& 0xFF0000 ≠ 0 := Or.inr hr
    obtain ⟨pxs, hl, hp, hq⟩ := flipPixels_four s h4 (by rw [hlen]; ring)
      (fun _ => ⟨hbw, hbwh⟩)
    rw [if_pos hgd] at hq
    obtain ⟨img, hres, hsurf, -, -, -⟩ := S2D_CreateImage_ok env path s _ hfile hmem hload hq
    refine ⟨img, hres, ?_, ?_⟩
    · rw [hsurf, hp]
      simp [flat4_length]
    · intro k hk
      have hk1 : k < pxs.length := by rw [hl]; exact hk
      rcases hpx : pxs[k] with ⟨b0, b1, b2, b3⟩
      refine ⟨b0, b1, b2, b3, ?_, ?_⟩
      · rw [hp, pixel4At_flat4, List.getElem?_eq_getElem hk1, hpx]
      · rw [hsurf]
        simp only
        rw [pixel4At_flat4, List.getElem?_map, List.getElem?_eq_getElem hk1, Option.map_some',
          hpx, specPixel4, swap03If_pos ha, swap12If_pos hg, swap02If_pos hr]

/-- C20 amended, at the surface `allSwaps1x1`: `[1,2,3,4]` becomes
`[2,3,4,1]`. -/
theorem C20_swap_order_witness :
    ((S2D_CreateImage (envOf allSwaps1x1) "all.png").result.map
        (Option.map fun img => img.surface.pixels) = .ok (some [2, 3, 4, 1])) ∧
    (4 * allSwaps1x1.w < 2 ^ 31 ∧ 4 * allSwaps1x1.w * allSwaps1x1.h < 2 ^ 31) ∧
    (∀ (i : Nat) (p : List Nat),
      flipPixel allSwaps1x1.format.Rmask allSwaps1x1.format.Gmask allSwaps1x1.format.Amask i p
        = (swapBytes p i (i + 3)).bind fun p1 =>
            (swapBytes p1 (i + 1) (i + 2)).bind fun p2 => swapBytes p2 i (i + 2)) ∧
    ∃ img, (S2D_CreateImage (envOf allSwaps1x1) "all.png").result = .ok (some img) ∧
      img.surface.pixels.length = allSwaps1x1.pixels.length ∧
      ∀ k, k < allSwaps1x1.w * allSwaps1x1.h → ∃ b0 b1 b2 b3,
        pixel4At allSwaps1x1.pixels k = some (b0, b1, b2, b3) ∧
        pixel4At img.surface.pixels k = some (b1, b2, b3, b0) :=
  ⟨rfl, ⟨by decide, by decide⟩,
    C20_swap_order (envOf allSwaps1x1) "all.png" allSwaps1x1 rfl rfl rfl rfl
      (by decide) (by decide) rfl (by decide) (by decide) (by decide)⟩

end Simple2D
